import Mathlib

/-!
Shallow embedding of the 1D_Heat_Diffusion discretization core
(`src/solver/mesher.py` and `src/solver/cartesian_mesh.py`).

Python floats are modelled as rationals (every value produced by the code
is rational for rational inputs), numpy arrays as lists, and fallible
Python code as `Except PyErr`.
-/

/-- Python exception kinds raised by the modelled code. -/
inductive PyErr where
  | valueError (msg : String) : PyErr
  | keyError : PyErr
  | indexError : PyErr
  | zeroDivisionError : PyErr
deriving DecidableEq, Repr

/-- A numpy 1-D array of floats. -/
abbrev Vec := List ℚ

/-- A numpy 2-D array of floats, as a list of rows. -/
abbrev Mat := List (List ℚ)

/-- Build an `r × c` matrix from an entry function. -/
def mkMat (r c : ℕ) (f : ℕ → ℕ → ℚ) : Mat :=
  (List.range r).map fun i => (List.range c).map fun j => f i j

/-- Entry read with numpy-free semantics: out of range reads default to 0
(only used at in-range indices when mirroring the source). -/
def matGet (M : Mat) (i j : ℕ) : ℚ :=
  (M.getD i []).getD j 0

/-- Number of rows. -/
def matRows (M : Mat) : ℕ := M.length

/-- Number of columns (length of the first row). -/
def matCols (M : Mat) : ℕ := (M.getD 0 []).length

/-- Well-formedness: `M` is an `r × c` matrix. -/
def IsMat (r c : ℕ) (M : Mat) : Prop :=
  M.length = r ∧ ∀ row ∈ M, row.length = c

/-- numpy `M[i, j] = v` for already-resolved in-range indices. -/
def matSet (M : Mat) (i j : ℕ) (v : ℚ) : Mat :=
  M.set i ((M.getD i []).set j v)

/-- numpy `M[i, :] = 0` for an already-resolved in-range row index. -/
def matSetRowZero (M : Mat) (i : ℕ) : Mat :=
  M.set i (List.replicate (M.getD i []).length 0)

/-- numpy scalar multiplication `M * c`. -/
def matScale (c : ℚ) (M : Mat) : Mat :=
  M.map fun row => row.map fun x => x * c

/-- numpy elementwise `A + B` (callers only use it on equal shapes). -/
def matAdd (A B : Mat) : Mat :=
  mkMat (matRows A) (matCols A) fun i j => matGet A i j + matGet B i j

/-- numpy unary negation `-M`. -/
def matNeg (M : Mat) : Mat :=
  M.map fun row => row.map fun x => -x

/-- numpy `np.transpose(M)`. -/
def npTranspose (M : Mat) : Mat :=
  mkMat (matCols M) (matRows M) fun i j => matGet M j i

/-- numpy `np.identity(n)`. -/
def npIdentity (n : ℕ) : Mat :=
  mkMat n n fun i j => if i = j then 1 else 0

/-- numpy `np.kron(A, B)`:
`np.kron(A, B)[i, j] = A[i / rB, j / cB] * B[i % rB, j % cB]`. -/
def npKron (A B : Mat) : Mat :=
  mkMat (matRows A * matRows B) (matCols A * matCols B) fun i j =>
    matGet A (i / matRows B) (j / matCols B) * matGet B (i % matRows B) (j % matCols B)

/-- A negative Python/numpy index counts from the end of the array. -/
def npResolve (n : ℕ) (i : ℤ) : ℤ :=
  if i < 0 then (n : ℤ) + i else i

/-- Resolution of a (possibly negative) Python/numpy index against size `n`;
out-of-range indices raise `IndexError`. -/
def npIndex (n : ℕ) (i : ℤ) : Except PyErr ℕ :=
  if 0 ≤ npResolve n i ∧ npResolve n i < (n : ℤ) then .ok (npResolve n i).toNat
  else .error .indexError

/-- Python float division, raising `ZeroDivisionError` on a zero divisor. -/
def pyDiv (a b : ℚ) : Except PyErr ℚ :=
  if b = 0 then .error .zeroDivisionError else .ok (a / b)

/-- numpy `np.zeros(n)`; a negative size raises `ValueError`. -/
def npZeros (n : ℤ) : Except PyErr Vec :=
  if n < 0 then .error (.valueError "negative dimensions are not allowed")
  else .ok (List.replicate n.toNat 0)

/-- numpy `np.ones(n)` (only its length is relevant downstream);
a negative size raises `ValueError`. -/
def npOnesLen (n : ℤ) : Except PyErr ℕ :=
  if n < 0 then .error (.valueError "negative dimensions are not allowed")
  else .ok n.toNat

/-- numpy `np.linspace(a, b, num)` (endpoint inclusive); a negative `num`
raises `ValueError`. -/
def npLinspace (a b : ℚ) (num : ℤ) : Except PyErr (List ℚ) :=
  if num < 0 then .error (.valueError "Number of samples must be non-negative")
  else .ok (if num = 1 then [a]
            else (List.range num.toNat).map fun (i : ℕ) =>
              a + (i : ℚ) * ((b - a) / ((num : ℚ) - 1)))

/-- scipy `scipy.sparse.spdiags(data, offsets).toarray()` for an `n × n`
result: entry `(i, j)` takes `data[k][j]` from the diagonal `k` whose offset
matches `j - i`. -/
def spdiags (data : List Vec) (offsets : List ℤ) (n : ℕ) : Mat :=
  mkMat n n fun i j =>
    ((data.zip offsets).map fun p => if (j : ℤ) - (i : ℤ) = p.2 then p.1.getD j 0 else 0).sum

/-- Python `needle in hay` on strings (substring containment). -/
def strContains (needle hay : String) : Bool :=
  (List.range (hay.toList.length + 1)).any fun k => needle.toList.isPrefixOf (hay.toList.drop k)

/-- Python `dict[key]` access, modelled positionally ("x" ↦ 0, "y" ↦ 1);
a missing key raises `KeyError`. -/
def keyGet {α : Type} (l : List α) (i : ℕ) : Except PyErr α :=
  match l[i]? with
  | some a => .ok a
  | none => .error .keyError

/-! ### `side_selector` (src/solver/mesher.py lines 356-375) -/

/-- `side_selector.boundary_index`: 0 for "left", −1 (Python index of the
last entry) for "right"; anything else raises `ValueError`. -/
def side_selector.boundary_index (side : String) : Except PyErr ℤ :=
  if side = "left" then .ok 0
  else if side = "right" then .ok (-1)
  else .error (.valueError "Side must input must be left or right")

/-- `side_selector.first_interior_index`: 1 for "left", −2 for "right";
anything else raises `ValueError`. -/
def side_selector.first_interior_index (side : String) : Except PyErr ℤ :=
  if side = "left" then .ok 1
  else if side = "right" then .ok (-2)
  else .error (.valueError "Side must input must be left or right")

/-! ### `mesh_type_validator` (src/solver/mesher.py lines 378-384) -/

/-- `mesh_type_validator.validate`. -/
def mesh_type_validator.validate (mesh_type : String) : Except PyErr Unit :=
  if mesh_type = "finite_volume" ∨ mesh_type = "finite_difference" then .ok ()
  else .error (.valueError "Side must input must be left or right")

/-! ### `differentiation_matrix` family (src/solver/mesher.py lines 213-290) -/

/-- `differentiation_matrix.set_diagonal(lower, middle, upper)`:
`spdiags` of the three constant diagonals at offsets −1, 0, 1. -/
def set_diagonal (n : ℕ) (lower middle upper : ℚ) : Mat :=
  spdiags [List.replicate n lower, List.replicate n middle, List.replicate n upper] [-1, 0, 1] n

/-- `differentiation_matrix.__init__` (the stored dense matrix). -/
def differentiation_matrix.construct (n_cells : ℤ) : Except PyErr Mat := do
  let n ← npOnesLen n_cells
  .ok (set_diagonal n 1 (-2) 1)

/-- `upwind_differentiation_matrix.__init__` final matrix. -/
def upwind_differentiation_matrix (n_cells : ℤ) : Except PyErr Mat := do
  let n ← npOnesLen n_cells
  .ok (set_diagonal n 1 (-1) 0)

/-- `central_differentiation_matrix.__init__` final matrix. -/
def central_differentiation_matrix (n_cells : ℤ) : Except PyErr Mat := do
  let n ← npOnesLen n_cells
  .ok (set_diagonal n (1/2) 0 (-1/2))

/-- `maccormack_differentiation_matrix.__init__` final matrix. -/
def maccormack_differentiation_matrix (n_cells : ℤ) : Except PyErr Mat := do
  let n ← npOnesLen n_cells
  .ok (set_diagonal n (-1) 1 0)

/-- `maccormack_differentiation_matrix.predictor_differentiation_matrix`:
`-np.transpose(coefficients)`, derived at construction. -/
def maccormack_predictor_matrix (n_cells : ℤ) : Except PyErr Mat := do
  let m ← maccormack_differentiation_matrix n_cells
  .ok (matNeg (npTranspose m))

/-- `differentiation_matrix.set_dirichlet_boundary(side, mesh_type)`. -/
def differentiation_matrix.set_dirichlet_boundary (M : Mat) (side mesh_type : String) :
    Except PyErr Mat := do
  let array_index ← side_selector.boundary_index side
  if mesh_type = "finite_volume" then do
    let i ← npIndex M.length array_index
    .ok (matSet M i i (-3))
  else if mesh_type = "finite_difference" then do
    let i ← npIndex M.length array_index
    .ok (matSetRowZero M i)
  else .error (.valueError "mesh must be finite_volume or finite_difference")

/-- `differentiation_matrix.set_neumann_boundary(side, mesh_type)`. -/
def differentiation_matrix.set_neumann_boundary (M : Mat) (side mesh_type : String) :
    Except PyErr Mat := do
  let boundary_index ← side_selector.boundary_index side
  let first_interior_index ← side_selector.first_interior_index side
  if mesh_type = "finite_volume" then do
    let i ← npIndex M.length boundary_index
    .ok (matSet M i i (-1))
  else if mesh_type = "finite_difference" then do
    let i ← npIndex M.length boundary_index
    let j ← npIndex M.length first_interior_index
    .ok (matSet M i j 2)
  else .error (.valueError
    "mesh_type unsupported, please input a finite_volume or finite_difference as mesh type")

/-! ### `grid` (src/solver/mesher.py lines 293-331) -/

/-- A constructed `grid` object. -/
structure grid where
  n_cells : ℤ
  cordinates : ℚ × ℚ
  cell_width : ℚ
  cell_cordinates : List ℚ
deriving DecidableEq, Repr

/-- `grid.__init__` / `grid.__discritize`. -/
def grid.construct (n_cells : ℤ) (cordinates : ℚ × ℚ) (mesh_type : String) :
    Except PyErr grid :=
  if mesh_type = "finite_volume" then do
    let w ← pyDiv (cordinates.2 - cordinates.1) (n_cells : ℚ)
    let coords ← npLinspace (cordinates.1 + w / 2) (cordinates.2 - w / 2) n_cells
    .ok ⟨n_cells, cordinates, w, coords⟩
  else if mesh_type = "finite_difference" then do
    let w ← pyDiv (cordinates.2 - cordinates.1) ((n_cells : ℚ) - 1)
    let coords ← npLinspace cordinates.1 cordinates.2 n_cells
    .ok ⟨n_cells, cordinates, w, coords⟩
  else .error (.valueError "Mesh type not supported")

/-! ### `boundary_condition` (src/solver/mesher.py lines 334-353) -/

/-- A constructed `boundary_condition` object. -/
structure boundary_condition where
  boundary_condition_array : Vec
  mesh_type : String
deriving DecidableEq, Repr

/-- `boundary_condition.__init__`. -/
def boundary_condition.construct (n_cells : ℤ) (mesh_type : String) :
    Except PyErr boundary_condition := do
  let arr ← npZeros n_cells
  let _ ← mesh_type_validator.validate mesh_type
  .ok ⟨arr, mesh_type⟩

/-- `boundary_condition.set_dirichlet_boundary(side, phi)`. -/
def boundary_condition.set_dirichlet_boundary (b : boundary_condition) (side : String)
    (phi : ℚ) : Except PyErr boundary_condition := do
  let boundary_index ← side_selector.boundary_index side
  if b.mesh_type = "finite_volume" then do
    let i ← npIndex b.boundary_condition_array.length boundary_index
    .ok ⟨b.boundary_condition_array.set i (2 * phi), b.mesh_type⟩
  else if b.mesh_type = "finite_difference" then do
    let i ← npIndex b.boundary_condition_array.length boundary_index
    .ok ⟨b.boundary_condition_array.set i 0, b.mesh_type⟩
  else .ok b

/-- Modelled from the spec: `boundary_condition.set_neumann_boundary(side, flux,
cell_width)` is called by `CartesianMesh.set_neumann_boundary` but absent from
`src/solver/mesher.py`. Following the spec's concrete Neumann property (flux 30,
cell width 1/4 gives boundary value `30 * 0.25 = 7.5`) and the repository's
CartesianMesh tests, the cell-centered scheme stores `flux * cell_width`; the
node-based branch follows the spec's `2 * flux * cell_width`. (The spec's §4.3
formula `flux / cell_width` contradicts its own §8 example and the tests.) -/
def boundary_condition.set_neumann_boundary (b : boundary_condition) (side : String)
    (flux cell_width : ℚ) : Except PyErr boundary_condition := do
  let boundary_index ← side_selector.boundary_index side
  if b.mesh_type = "finite_volume" then do
    let i ← npIndex b.boundary_condition_array.length boundary_index
    .ok ⟨b.boundary_condition_array.set i (flux * cell_width), b.mesh_type⟩
  else if b.mesh_type = "finite_difference" then do
    let i ← npIndex b.boundary_condition_array.length boundary_index
    .ok ⟨b.boundary_condition_array.set i (2 * flux * cell_width), b.mesh_type⟩
  else .ok b

/-! ### `CartesianMesh` (src/solver/cartesian_mesh.py) -/

/-- A constructed `CartesianMesh` object. Dictionaries keyed "x_…"/"y_…" are
modelled positionally: index 0 is the x axis, index 1 the y axis. -/
structure CartesianMesh where
  dimensions : ℤ
  n_cells : List ℤ
  cordinates : List (ℚ × ℚ)
  mesh_type : String
  grid : List grid
  differentiation_matrix : List Mat
  boundary_condition : List boundary_condition
  laplacian : Mat
deriving DecidableEq, Repr

/-- A placeholder grid used only for out-of-range `getD` reads in statements. -/
def grid.dummy : grid := ⟨0, (0, 0), 0, []⟩

/-- `CartesianMesh.validate_inputs`. The mesh-type test is Python string
containment in the string `"finite_volume"`. -/
def CartesianMesh.validate_inputs (n_cells : List ℤ) (cordinates : List (ℚ × ℚ))
    (dimensions : ℤ) (mesh_type : String) : Except PyErr Unit :=
  if 2 < dimensions then .error (.valueError "mesh dimesnionality not implemented")
  else if (cordinates.length : ℤ) ≠ dimensions then
    .error (.valueError "number of cordinates needs to match dimesnions")
  else if (n_cells.length : ℤ) ≠ dimensions then
    .error (.valueError "legth of n_cells list needs to match dimension")
  else if ¬ strContains mesh_type "finite_volume" then
    .error (.valueError (mesh_type ++ ": is not an implemented mesh"))
  else .ok ()

/-- `CartesianMesh.set_laplacian`. -/
def CartesianMesh.set_laplacian (m : CartesianMesh) : Except PyErr CartesianMesh :=
  if m.dimensions = 1 then do
    let d ← keyGet m.differentiation_matrix 0
    let g ← keyGet m.grid 0
    let s ← pyDiv 1 (g.cell_width * g.cell_width)
    .ok ⟨m.dimensions, m.n_cells, m.cordinates, m.mesh_type, m.grid,
         m.differentiation_matrix, m.boundary_condition, matScale s d⟩
  else if m.dimensions = 2 then do
    let dx ← keyGet m.differentiation_matrix 0
    let gx ← keyGet m.grid 0
    let sx ← pyDiv 1 (gx.cell_width * gx.cell_width)
    let d2x := matScale sx dx
    let dy ← keyGet m.differentiation_matrix 1
    let gy ← keyGet m.grid 1
    let sy ← pyDiv 1 (gy.cell_width * gy.cell_width)
    let d2y := matScale sy dy
    let Ix := npIdentity gx.n_cells.toNat
    let Iy := npIdentity gy.n_cells.toNat
    .ok ⟨m.dimensions, m.n_cells, m.cordinates, m.mesh_type, m.grid,
         m.differentiation_matrix, m.boundary_condition,
         matAdd (npKron Iy d2x) (npKron d2y Ix)⟩
  else .ok m

/-- `CartesianMesh.__init__`: validation, per-axis grids, per-axis
differentiation matrices, per-axis boundary conditions, initial Laplacian. -/
def CartesianMesh.construct (dimensions : ℤ) (n_cells : List ℤ)
    (cordinates : List (ℚ × ℚ)) (mesh_type : String) : Except PyErr CartesianMesh := do
  let _ ← CartesianMesh.validate_inputs n_cells cordinates dimensions mesh_type
  let grids ← (List.range dimensions.toNat).mapM fun i =>
    grid.construct (n_cells.getD i 0) (cordinates.getD i (0, 0)) mesh_type
  let diffs ← (List.range dimensions.toNat).mapM fun i =>
    differentiation_matrix.construct (n_cells.getD i 0)
  let bcs ← (List.range dimensions.toNat).mapM fun i =>
    boundary_condition.construct (n_cells.getD i 0) mesh_type
  CartesianMesh.set_laplacian
    ⟨dimensions, n_cells, cordinates, mesh_type, grids, diffs, bcs, []⟩

/-- `CartesianMesh.set_dirichlet_boundary(side, phi)`: two independent `if`
blocks route to the x or y axis (an unrecognized side matches neither and is
silently ignored), then the Laplacian is recomputed. -/
def CartesianMesh.set_dirichlet_boundary (m : CartesianMesh) (side : String) (phi : ℚ) :
    Except PyErr CartesianMesh :=
  (if side = "left" ∨ side = "right" then do
      let d ← keyGet m.differentiation_matrix 0
      let d' ← differentiation_matrix.set_dirichlet_boundary d side m.mesh_type
      let b ← keyGet m.boundary_condition 0
      let b' ← boundary_condition.set_dirichlet_boundary b side phi
      Except.ok (⟨m.dimensions, m.n_cells, m.cordinates, m.mesh_type, m.grid,
        m.differentiation_matrix.set 0 d', m.boundary_condition.set 0 b', m.laplacian⟩ :
          CartesianMesh)
    else .ok m) >>= fun m₁ =>
  (if side = "top" ∨ side = "bottom" then do
      let d ← keyGet m₁.differentiation_matrix 1
      let d' ← differentiation_matrix.set_dirichlet_boundary d side m₁.mesh_type
      let b ← keyGet m₁.boundary_condition 1
      let b' ← boundary_condition.set_dirichlet_boundary b side phi
      Except.ok (⟨m₁.dimensions, m₁.n_cells, m₁.cordinates, m₁.mesh_type, m₁.grid,
        m₁.differentiation_matrix.set 1 d', m₁.boundary_condition.set 1 b', m₁.laplacian⟩ :
          CartesianMesh)
    else .ok m₁) >>= fun m₂ =>
  m₂.set_laplacian

/-- `CartesianMesh.set_neumann_boundary(side, flux)`: `if`/`elif` routing (an
unrecognized side matches neither branch and is silently ignored), then the
Laplacian is recomputed. -/
def CartesianMesh.set_neumann_boundary (m : CartesianMesh) (side : String) (flux : ℚ) :
    Except PyErr CartesianMesh :=
  (if side = "left" ∨ side = "right" then do
      let d ← keyGet m.differentiation_matrix 0
      let d' ← differentiation_matrix.set_neumann_boundary d side m.mesh_type
      let b ← keyGet m.boundary_condition 0
      let g ← keyGet m.grid 0
      let b' ← boundary_condition.set_neumann_boundary b side flux g.cell_width
      Except.ok (⟨m.dimensions, m.n_cells, m.cordinates, m.mesh_type, m.grid,
        m.differentiation_matrix.set 0 d', m.boundary_condition.set 0 b', m.laplacian⟩ :
          CartesianMesh)
    else if side = "top" ∨ side = "bottom" then do
      let d ← keyGet m.differentiation_matrix 1
      let d' ← differentiation_matrix.set_neumann_boundary d side m.mesh_type
      let b ← keyGet m.boundary_condition 1
      let g ← keyGet m.grid 1
      let b' ← boundary_condition.set_neumann_boundary b side flux g.cell_width
      Except.ok (⟨m.dimensions, m.n_cells, m.cordinates, m.mesh_type, m.grid,
        m.differentiation_matrix.set 1 d', m.boundary_condition.set 1 b', m.laplacian⟩ :
          CartesianMesh)
    else .ok m) >>= fun m₁ =>
  m₁.set_laplacian

/-- A boundary mutation on a `CartesianMesh`. -/
inductive BoundaryOp where
  | dirichlet (side : String) (phi : ℚ) : BoundaryOp
  | neumann (side : String) (flux : ℚ) : BoundaryOp
deriving DecidableEq, Repr

/-- Apply one boundary mutation. -/
def applyOp (m : CartesianMesh) : BoundaryOp → Except PyErr CartesianMesh
  | .dirichlet side phi => m.set_dirichlet_boundary side phi
  | .neumann side flux => m.set_neumann_boundary side flux

/-- Apply a sequence of boundary mutations. -/
def runOps (m : CartesianMesh) (ops : List BoundaryOp) : Except PyErr CartesianMesh :=
  ops.foldlM applyOp m

/-- Construct a mesh and apply a sequence of boundary mutations: every
reachable state of a `CartesianMesh` is a successful result of this. -/
def buildRun (dimensions : ℤ) (n_cells : List ℤ) (cordinates : List (ℚ × ℚ))
    (mesh_type : String) (ops : List BoundaryOp) : Except PyErr CartesianMesh := do
  let m ← CartesianMesh.construct dimensions n_cells cordinates mesh_type
  runOps m ops

/-! ### Derived accessors and statement abbreviations -/

/-- A placeholder boundary condition for out-of-range `getD` reads. -/
def boundary_condition.dummy : boundary_condition := ⟨[], ""⟩

/-- The x-axis grid of a mesh (`grid["x_grid"]`). -/
def xGrid (m : CartesianMesh) : grid := m.grid.getD 0 grid.dummy

/-- The y-axis grid of a mesh (`grid["y_grid"]`). -/
def yGrid (m : CartesianMesh) : grid := m.grid.getD 1 grid.dummy

/-- The x-axis stencil (`differentiation_matrix["x_differentiation_matrix"]`). -/
def xDiff (m : CartesianMesh) : Mat := m.differentiation_matrix.getD 0 []

/-- The y-axis stencil (`differentiation_matrix["y_differentiation_matrix"]`). -/
def yDiff (m : CartesianMesh) : Mat := m.differentiation_matrix.getD 1 []

/-- The x-axis boundary vector (`boundary_condition["x_boundary_condition_array"]`). -/
def xBC (m : CartesianMesh) : Vec :=
  (m.boundary_condition.getD 0 boundary_condition.dummy).boundary_condition_array

/-- The y-axis boundary vector (`boundary_condition["y_boundary_condition_array"]`). -/
def yBC (m : CartesianMesh) : Vec :=
  (m.boundary_condition.getD 1 boundary_condition.dummy).boundary_condition_array

/-- The 1D Laplacian formula: the x stencil rescaled by `1 / cell_width²`. -/
def lapFormula1 (m : CartesianMesh) : Mat :=
  matScale (1 / ((xGrid m).cell_width * (xGrid m).cell_width)) (xDiff m)

/-- The 2D Laplacian formula: `kron(Iy, Dxx) + kron(Dyy, Ix)`. -/
def lapFormula2 (m : CartesianMesh) : Mat :=
  matAdd
    (npKron (npIdentity (yGrid m).n_cells.toNat)
      (matScale (1 / ((xGrid m).cell_width * (xGrid m).cell_width)) (xDiff m)))
    (npKron (matScale (1 / ((yGrid m).cell_width * (yGrid m).cell_width)) (yDiff m))
      (npIdentity (xGrid m).n_cells.toNat))

/-- The computation raised a Python `ValueError`. -/
def raisesValueError {α : Type} (e : Except PyErr α) : Prop :=
  ∃ s, e = .error (.valueError s)

/-- The computation completed without an exception. -/
def runSucceeds {α : Type} (e : Except PyErr α) : Prop :=
  ∃ a, e = .ok a

/-- Boolean success test for an `Except` computation. -/
def isOkB {α : Type} : Except PyErr α → Bool
  | .ok _ => true
  | .error _ => false

instance exceptDecidableEq {ε α : Type} [DecidableEq ε] [DecidableEq α] :
    DecidableEq (Except ε α) := fun a b =>
  match a, b with
  | .ok x, .ok y =>
    if h : x = y then isTrue (by rw [h]) else isFalse (by simp [h])
  | .error x, .error y =>
    if h : x = y then isTrue (by rw [h]) else isFalse (by simp [h])
  | .ok _, .error _ => isFalse (by simp)
  | .error _, .ok _ => isFalse (by simp)

/-- The computation succeeds and its result satisfies `p`. -/
def okProp {α : Type} (e : Except PyErr α) (p : α → Prop) : Prop :=
  match e with
  | .ok a => p a
  | .error _ => False

instance okPropDecidable {α : Type} (e : Except PyErr α) (p : α → Prop)
    [inst : ∀ a, Decidable (p a)] : Decidable (okProp e p) :=
  match e with
  | .ok a => inst a
  | .error _ => isFalse fun h => h

/-! ### Helper lemmas: lists and matrices -/

theorem isOkB_ok {α : Type} {e : Except PyErr α} (h : isOkB e = true) :
    ∃ a, e = .ok a := by
  cases e with
  | ok a => exact ⟨a, rfl⟩
  | error err => simp [isOkB] at h

theorem okProp_ok {α : Type} {p : α → Prop} {a : α} : okProp (.ok a) p ↔ p a := Iff.rfl

theorem okProp_elim {α : Type} {e : Except PyErr α} {p : α → Prop} (h : okProp e p) :
    ∃ a, e = .ok a ∧ p a := by
  cases e with
  | ok a => exact ⟨a, rfl, h⟩
  | error err => exact absurd h fun hf => hf

theorem ebind_ok {α β : Type} (a : α) (f : α → Except PyErr β) :
    (Except.ok a >>= f) = f a := rfl

theorem ebind_err {α β : Type} (e : PyErr) (f : α → Except PyErr β) :
    ((Except.error e : Except PyErr α) >>= f) = .error e := rfl

theorem epure {α : Type} (a : α) : (pure a : Except PyErr α) = .ok a := rfl

theorem ebind_eq_ok {α β : Type} {e : Except PyErr α} {f : α → Except PyErr β} {b : β} :
    (e >>= f) = .ok b ↔ ∃ a, e = .ok a ∧ f a = .ok b := by
  cases e with
  | ok a => simp [ebind_ok]
  | error err => simp [ebind_err]

theorem getD_set_self {α : Type} (l : List α) (i : ℕ) (v d : α) (h : i < l.length) :
    (l.set i v).getD i d = v := by
  simp [List.getD_eq_getElem?_getD, List.getElem?_set, h]

theorem getD_set_ne {α : Type} (l : List α) (i j : ℕ) (v d : α) (h : i ≠ j) :
    (l.set i v).getD j d = l.getD j d := by
  simp [List.getD_eq_getElem?_getD, List.getElem?_set_ne h]

theorem getD_replicate {α : Type} (n i : ℕ) (a d : α) (h : i < n) :
    (List.replicate n a).getD i d = a := by
  simp [List.getD_eq_getElem?_getD, List.getElem?_replicate, h]

theorem mkMat_length (r c : ℕ) (f : ℕ → ℕ → ℚ) : (mkMat r c f).length = r := by
  simp [mkMat]

theorem mkMat_row (r c : ℕ) (f : ℕ → ℕ → ℚ) (i : ℕ) (h : i < r) :
    (mkMat r c f).getD i [] = (List.range c).map (f i) := by
  simp [mkMat, List.getD_eq_getElem?_getD, List.getElem?_map, List.getElem?_range h]

theorem matGet_mkMat (r c : ℕ) (f : ℕ → ℕ → ℚ) (i j : ℕ) (hi : i < r) (hj : j < c) :
    matGet (mkMat r c f) i j = f i j := by
  unfold matGet
  rw [mkMat_row r c f i hi]
  simp [List.getD_eq_getElem?_getD, List.getElem?_map, List.getElem?_range hj]

theorem IsMat_mkMat (r c : ℕ) (f : ℕ → ℕ → ℚ) : IsMat r c (mkMat r c f) := by
  constructor
  · simp [mkMat]
  · intro row hrow
    simp only [mkMat, List.mem_map] at hrow
    obtain ⟨i, _, rfl⟩ := hrow
    simp

theorem matRows_mkMat (r c : ℕ) (f : ℕ → ℕ → ℚ) : matRows (mkMat r c f) = r := by
  simp [matRows, mkMat]

theorem matCols_mkMat (r c : ℕ) (f : ℕ → ℕ → ℚ) (h : 0 < r) :
    matCols (mkMat r c f) = c := by
  unfold matCols
  rw [mkMat_row r c f 0 h]
  simp

theorem matCols_of_IsMat {r c : ℕ} {M : Mat} (h : IsMat r c M) (hr : 0 < r) :
    matCols M = c := by
  obtain ⟨hlen, hrow⟩ := h
  cases M with
  | nil => simp at hlen; omega
  | cons row rest => simpa [matCols] using hrow row (by simp)

theorem matRows_of_IsMat {r c : ℕ} {M : Mat} (h : IsMat r c M) : matRows M = r := h.1

theorem matGet_matSet_self (M : Mat) (i j : ℕ) (v : ℚ) (hi : i < M.length)
    (hj : j < (M.getD i []).length) : matGet (matSet M i j v) i j = v := by
  unfold matGet matSet
  rw [getD_set_self _ _ _ _ hi, getD_set_self _ _ _ _ hj]

theorem matGet_matSet_ne (M : Mat) (i j a b : ℕ) (v : ℚ) (h : ¬(a = i ∧ b = j)) :
    matGet (matSet M i j v) a b = matGet M a b := by
  unfold matGet matSet
  by_cases ha : a = i
  · subst ha
    have hb : b ≠ j := fun hb => h ⟨rfl, hb⟩
    by_cases hi : a < M.length
    · rw [getD_set_self _ _ _ _ hi, getD_set_ne _ _ _ _ _ (Ne.symm hb)]
    · rw [List.set_eq_of_length_le (by omega)]
  · rw [getD_set_ne _ _ _ _ _ (Ne.symm ha)]

theorem matGet_matSetRowZero_self (M : Mat) (i b : ℕ) (hi : i < M.length)
    (hb : b < (M.getD i []).length) : matGet (matSetRowZero M i) i b = 0 := by
  unfold matGet matSetRowZero
  rw [getD_set_self _ _ _ _ hi, getD_replicate _ _ _ _ hb]

theorem matGet_matSetRowZero_ne (M : Mat) (i a b : ℕ) (ha : a ≠ i) :
    matGet (matSetRowZero M i) a b = matGet M a b := by
  unfold matGet matSetRowZero
  rw [getD_set_ne _ _ _ _ _ (Ne.symm ha)]

theorem length_matSet (M : Mat) (i j : ℕ) (v : ℚ) : (matSet M i j v).length = M.length := by
  simp [matSet]

theorem length_matSetRowZero (M : Mat) (i : ℕ) : (matSetRowZero M i).length = M.length := by
  simp [matSetRowZero]

theorem getD_mem {α : Type} (l : List α) (i : ℕ) (d : α) (h : i < l.length) :
    l.getD i d ∈ l := by
  rw [List.getD_eq_getElem?_getD, List.getElem?_eq_getElem h]
  exact List.getElem_mem h

theorem IsMat_matSet {r c : ℕ} {M : Mat} (h : IsMat r c M) (i j : ℕ) (v : ℚ) :
    IsMat r c (matSet M i j v) := by
  obtain ⟨hlen, hrow⟩ := h
  by_cases hi : i < M.length
  · refine ⟨by simp [matSet, hlen], ?_⟩
    intro row hmem
    rcases List.mem_or_eq_of_mem_set hmem with hold | hnew
    · exact hrow row hold
    · subst hnew
      rw [List.length_set]
      exact hrow _ (getD_mem M i [] hi)
  · unfold matSet
    rw [List.set_eq_of_length_le (by omega)]
    exact ⟨hlen, hrow⟩

theorem IsMat_matSetRowZero {r c : ℕ} {M : Mat} (h : IsMat r c M) (i : ℕ) :
    IsMat r c (matSetRowZero M i) := by
  obtain ⟨hlen, hrow⟩ := h
  by_cases hi : i < M.length
  · refine ⟨by simp [matSetRowZero, hlen], ?_⟩
    intro row hmem
    rcases List.mem_or_eq_of_mem_set hmem with hold | hnew
    · exact hrow row hold
    · subst hnew
      rw [List.length_replicate]
      exact hrow _ (getD_mem M i [] hi)
  · unfold matSetRowZero
    rw [List.set_eq_of_length_le (by omega)]
    exact ⟨hlen, hrow⟩

theorem matGet_matScale (c : ℚ) (M : Mat) (i j : ℕ) :
    matGet (matScale c M) i j = matGet M i j * c := by
  unfold matGet matScale
  simp only [List.getD_eq_getElem?_getD, List.getElem?_map]
  cases hM : M[i]? with
  | none => simp
  | some row =>
    simp only [Option.map_some', Option.getD_some, List.getElem?_map]
    cases hrow : row[j]? <;> simp

theorem IsMat_matScale {r c : ℕ} {M : Mat} (h : IsMat r c M) (s : ℚ) :
    IsMat r c (matScale s M) := by
  obtain ⟨hlen, hrow⟩ := h
  refine ⟨by simp [matScale, hlen], ?_⟩
  intro row hmem
  simp only [matScale, List.mem_map] at hmem
  obtain ⟨row₀, hmem₀, rfl⟩ := hmem
  simpa using hrow row₀ hmem₀

theorem matGet_npIdentity (n i j : ℕ) (hi : i < n) (hj : j < n) :
    matGet (npIdentity n) i j = if i = j then 1 else 0 := by
  unfold npIdentity
  rw [matGet_mkMat _ _ _ _ _ hi hj]

theorem IsMat_npIdentity (n : ℕ) : IsMat n n (npIdentity n) := IsMat_mkMat _ _ _

theorem pyDiv_ok {a b c : ℚ} : pyDiv a b = .ok c ↔ b ≠ 0 ∧ c = a / b := by
  unfold pyDiv
  split
  · simp_all
  · simp_all [eq_comm]

theorem keyGet_ok {α : Type} {l : List α} {i : ℕ} {a : α} :
    keyGet l i = .ok a ↔ l[i]? = some a := by
  unfold keyGet
  cases h : l[i]? <;> simp

theorem keyGet_ok_getD {α : Type} {l : List α} {i : ℕ} {a : α} (d : α)
    (h : keyGet l i = .ok a) : l.getD i d = a := by
  rw [List.getD_eq_getElem?_getD, keyGet_ok.mp h]
  rfl

theorem keyGet_none {α : Type} {l : List α} {i : ℕ} (h : l.length ≤ i) :
    keyGet l i = .error .keyError := by
  unfold keyGet
  rw [List.getElem?_eq_none h]

theorem npResolve_zero (n : ℕ) : npResolve n 0 = 0 := by
  simp [npResolve]

theorem npResolve_neg_one (n : ℕ) : npResolve n (-1) = (n : ℤ) - 1 := by
  unfold npResolve
  rw [if_pos (by omega)]
  omega

theorem npResolve_neg_two (n : ℕ) : npResolve n (-2) = (n : ℤ) - 2 := by
  unfold npResolve
  rw [if_pos (by omega)]
  omega

theorem npIndex_zero (n : ℕ) (h : 0 < n) : npIndex n 0 = .ok 0 := by
  unfold npIndex
  rw [npResolve_zero, if_pos ⟨by omega, by omega⟩]
  rfl

theorem npIndex_neg_one (n : ℕ) (h : 0 < n) : npIndex n (-1) = .ok (n - 1) := by
  unfold npIndex
  rw [npResolve_neg_one, if_pos ⟨by omega, by omega⟩]
  congr 1
  omega

theorem npIndex_neg_two (n : ℕ) (h : 2 ≤ n) : npIndex n (-2) = .ok (n - 2) := by
  unfold npIndex
  rw [npResolve_neg_two, if_pos ⟨by omega, by omega⟩]
  congr 1
  omega

theorem set_diagonal_entry (n : ℕ) (lo mi up : ℚ) (i j : ℕ) (hi : i < n) (hj : j < n) :
    matGet (set_diagonal n lo mi up) i j =
      if i = j + 1 then lo else if i = j then mi else if j = i + 1 then up else 0 := by
  unfold set_diagonal spdiags
  rw [matGet_mkMat _ _ _ _ _ hi hj]
  simp only [List.zip_cons_cons, List.zip_nil_right, List.map_cons, List.map_nil,
    List.sum_cons, List.sum_nil, getD_replicate _ _ _ _ hj]
  split_ifs <;> first | (exfalso; omega) | ring1

theorem mulIdx_lt {a b m p : ℕ} (ha : a < p) (hb : b < m) : a * m + b < p * m := by
  calc a * m + b < a * m + m := by omega
    _ = (a + 1) * m := by ring
    _ ≤ p * m := Nat.mul_le_mul_right m (by omega)

theorem mulIdx_div {a b m : ℕ} (hm : 0 < m) (hb : b < m) : (a * m + b) / m = a := by
  rw [Nat.add_comm, Nat.mul_comm, Nat.add_mul_div_left _ _ hm, Nat.div_eq_of_lt hb,
    Nat.zero_add]

theorem mulIdx_mod {a b m : ℕ} (hb : b < m) : (a * m + b) % m = b := by
  rw [Nat.mul_comm, Nat.mul_add_mod, Nat.mod_eq_of_lt hb]

theorem matGet_npKron {p m : ℕ} (A B : Mat) (hA : IsMat p p A) (hB : IsMat m m B)
    (i₁ j₁ i₂ j₂ : ℕ) (h₁ : i₁ < p) (h₂ : j₁ < p) (h₃ : i₂ < m) (h₄ : j₂ < m) :
    matGet (npKron A B) (i₁ * m + i₂) (j₁ * m + j₂) = matGet A i₁ j₁ * matGet B i₂ j₂ := by
  have hp : 0 < p := by omega
  have hm : 0 < m := by omega
  unfold npKron
  rw [matRows_of_IsMat hA, matRows_of_IsMat hB, matCols_of_IsMat hA hp,
    matCols_of_IsMat hB hm,
    matGet_mkMat _ _ _ _ _ (mulIdx_lt h₁ h₃) (mulIdx_lt h₂ h₄),
    mulIdx_div hm h₃, mulIdx_div hm h₄, mulIdx_mod h₃, mulIdx_mod h₄]

theorem IsMat_npKron {p m : ℕ} (A B : Mat) (hA : IsMat p p A) (hB : IsMat m m B)
    (hp : 0 < p) (hm : 0 < m) : IsMat (p * m) (p * m) (npKron A B) := by
  unfold npKron
  rw [matRows_of_IsMat hA, matRows_of_IsMat hB, matCols_of_IsMat hA hp,
    matCols_of_IsMat hB hm]
  exact IsMat_mkMat _ _ _

theorem matGet_matAdd (A B : Mat) (i j : ℕ) (hi : i < matRows A) (hj : j < matCols A) :
    matGet (matAdd A B) i j = matGet A i j + matGet B i j := by
  unfold matAdd
  rw [matGet_mkMat _ _ _ _ _ hi hj]

theorem kron_sum_entry {nx ny : ℕ} (A B : Mat) (hA : IsMat nx nx A) (hB : IsMat ny ny B)
    (ix jx iy jy : ℕ) (hix : ix < nx) (hjx : jx < nx) (hiy : iy < ny) (hjy : jy < ny) :
    matGet (matAdd (npKron (npIdentity ny) A) (npKron B (npIdentity nx)))
        (iy * nx + ix) (jy * nx + jx) =
      (if iy = jy then matGet A ix jx else 0) + (if ix = jx then matGet B iy jy else 0) := by
  have hx : 0 < nx := by omega
  have hy : 0 < ny := by omega
  have hK1 : IsMat (ny * nx) (ny * nx) (npKron (npIdentity ny) A) :=
    IsMat_npKron _ _ (IsMat_npIdentity ny) hA hy hx
  have hrow : iy * nx + ix < matRows (npKron (npIdentity ny) A) := by
    rw [matRows_of_IsMat hK1]; exact mulIdx_lt hiy hix
  have hcol : jy * nx + jx < matCols (npKron (npIdentity ny) A) := by
    rw [matCols_of_IsMat hK1 (by positivity)]; exact mulIdx_lt hjy hjx
  rw [matGet_matAdd _ _ _ _ hrow hcol,
    matGet_npKron (npIdentity ny) A (IsMat_npIdentity ny) hA iy jy ix jx hiy hjy hix hjx,
    matGet_npKron B (npIdentity nx) hB (IsMat_npIdentity nx) iy jy ix jx hiy hjy hix hjx,
    matGet_npIdentity ny iy jy hiy hjy, matGet_npIdentity nx ix jx hix hjx]
  split_ifs <;> ring

theorem mapM_ok_length {α β : Type} (f : α → Except PyErr β) :
    ∀ (l : List α) (ys : List β), l.mapM f = .ok ys → ys.length = l.length
  | [], ys, h => by
    rw [List.mapM_nil, epure] at h
    injection h with h
    simp [← h]
  | a :: l, ys, h => by
    rw [List.mapM_cons] at h
    rw [ebind_eq_ok] at h
    obtain ⟨b, hb, h⟩ := h
    rw [ebind_eq_ok] at h
    obtain ⟨bs, hbs, h⟩ := h
    rw [epure] at h
    injection h with h
    subst h
    simp [mapM_ok_length f l bs hbs]

theorem mapM_ok_get {α β : Type} (f : α → Except PyErr β) :
    ∀ (l : List α) (ys : List β), l.mapM f = .ok ys →
      ∀ (i : ℕ) (a : α), l[i]? = some a → ∃ b, ys[i]? = some b ∧ f a = .ok b
  | [], ys, _, i, a, ha => by simp at ha
  | x :: l, ys, h, i, a, ha => by
    rw [List.mapM_cons] at h
    rw [ebind_eq_ok] at h
    obtain ⟨b, hb, h⟩ := h
    rw [ebind_eq_ok] at h
    obtain ⟨bs, hbs, h⟩ := h
    rw [epure] at h
    injection h with h
    subst h
    cases i with
    | zero =>
      simp only [List.getElem?_cons_zero, Option.some.injEq] at ha
      subst ha
      exact ⟨b, by simp, hb⟩
    | succ i =>
      simp only [List.getElem?_cons_succ] at ha ⊢
      exact mapM_ok_get f l bs hbs i a ha

theorem mapM_all_ok {α β : Type} (f : α → Except PyErr β) :
    ∀ (l : List α), (∀ a ∈ l, ∃ b, f a = .ok b) → ∃ ys, l.mapM f = .ok ys
  | [], _ => ⟨[], by rw [List.mapM_nil, epure]⟩
  | a :: l, h => by
    obtain ⟨b, hb⟩ := h a (by simp)
    obtain ⟨ys, hys⟩ := mapM_all_ok f l fun x hx => h x (by simp [hx])
    exact ⟨b :: ys, by rw [List.mapM_cons, hb, ebind_ok, hys, ebind_ok, epure]⟩

theorem mapM_cons_error {α β : Type} (f : α → Except PyErr β) (a : α) (l : List α)
    (e : PyErr) (h : f a = .error e) : (a :: l).mapM f = .error e := by
  rw [List.mapM_cons, h, ebind_err]

theorem grid_construct_fv_ok {n : ℤ} (c : ℚ × ℚ) (h : 1 ≤ n) :
    ∃ coords, grid.construct n c "finite_volume" =
      .ok ⟨n, c, (c.2 - c.1) / (n : ℚ), coords⟩ := by
  unfold grid.construct
  rw [if_pos rfl]
  have h0 : ((n : ℤ) : ℚ) ≠ 0 := by
    rw [Int.cast_ne_zero]
    omega
  rw [show pyDiv (c.2 - c.1) ((n : ℤ) : ℚ) = .ok ((c.2 - c.1) / ((n : ℤ) : ℚ)) from by
    unfold pyDiv; rw [if_neg h0], ebind_ok]
  unfold npLinspace
  rw [if_neg (by omega), ebind_ok]
  exact ⟨_, rfl⟩

theorem grid_construct_fd_ok {n : ℤ} (c : ℚ × ℚ) (h : 2 ≤ n ∨ n = 0) :
    ∃ coords, grid.construct n c "finite_difference" =
      .ok ⟨n, c, (c.2 - c.1) / ((n : ℚ) - 1), coords⟩ := by
  unfold grid.construct
  rw [if_neg (by decide), if_pos rfl]
  have h0 : ((n : ℤ) : ℚ) - 1 ≠ 0 := by
    intro hz
    have : ((n : ℤ) : ℚ) = 1 := by linarith
    rw [show ((1 : ℚ)) = ((1 : ℤ) : ℚ) from by norm_num, Int.cast_inj] at this
    omega
  rw [show pyDiv (c.2 - c.1) (((n : ℤ) : ℚ) - 1) =
      .ok ((c.2 - c.1) / (((n : ℤ) : ℚ) - 1)) from by
    unfold pyDiv; rw [if_neg h0], ebind_ok]
  unfold npLinspace
  rw [if_neg (by omega), ebind_ok]
  exact ⟨_, rfl⟩

theorem dm_construct_ok {n : ℤ} (h : ¬ n < 0) :
    differentiation_matrix.construct n = .ok (set_diagonal n.toNat 1 (-2) 1) := by
  unfold differentiation_matrix.construct npOnesLen
  rw [if_neg h, ebind_ok]

theorem bc_construct_ok {n : ℤ} (mt : String) (h : ¬ n < 0)
    (hmt : mt = "finite_volume" ∨ mt = "finite_difference") :
    boundary_condition.construct n mt = .ok ⟨List.replicate n.toNat 0, mt⟩ := by
  unfold boundary_condition.construct npZeros mesh_type_validator.validate
  rw [if_neg h, ebind_ok, if_pos hmt, ebind_ok]

theorem set_laplacian_ok_props {m m' : CartesianMesh} (h : m.set_laplacian = .ok m') :
    m'.dimensions = m.dimensions ∧ m'.n_cells = m.n_cells ∧ m'.cordinates = m.cordinates ∧
    m'.mesh_type = m.mesh_type ∧ m'.grid = m.grid ∧
    m'.differentiation_matrix = m.differentiation_matrix ∧
    m'.boundary_condition = m.boundary_condition ∧
    m'.set_laplacian = .ok m' ∧
    (m'.dimensions = 1 → m'.laplacian = lapFormula1 m') ∧
    (m'.dimensions = 2 → m'.laplacian = lapFormula2 m') := by
  unfold CartesianMesh.set_laplacian at h
  by_cases h1 : m.dimensions = 1
  · rw [if_pos h1] at h
    rw [ebind_eq_ok] at h
    obtain ⟨d, hd, h⟩ := h
    rw [ebind_eq_ok] at h
    obtain ⟨g, hg, h⟩ := h
    rw [ebind_eq_ok] at h
    obtain ⟨s, hs, h⟩ := h
    injection h with h
    subst h
    obtain ⟨hs0, hs1⟩ := pyDiv_ok.mp hs
    refine ⟨rfl, rfl, rfl, rfl, rfl, rfl, rfl, ?_, ?_, ?_⟩
    · unfold CartesianMesh.set_laplacian
      rw [if_pos (show (⟨m.dimensions, m.n_cells, m.cordinates, m.mesh_type, m.grid,
          m.differentiation_matrix, m.boundary_condition,
          matScale s d⟩ : CartesianMesh).dimensions = 1 from h1)]
      rw [show keyGet (⟨m.dimensions, m.n_cells, m.cordinates, m.mesh_type, m.grid,
          m.differentiation_matrix, m.boundary_condition,
          matScale s d⟩ : CartesianMesh).differentiation_matrix 0 = .ok d from hd, ebind_ok]
      rw [show keyGet (⟨m.dimensions, m.n_cells, m.cordinates, m.mesh_type, m.grid,
          m.differentiation_matrix, m.boundary_condition,
          matScale s d⟩ : CartesianMesh).grid 0 = .ok g from hg, ebind_ok]
      rw [hs, ebind_ok]
    · intro _
      unfold lapFormula1 xDiff xGrid
      show matScale s d =
        matScale (1 / ((m.grid.getD 0 grid.dummy).cell_width * (m.grid.getD 0 grid.dummy).cell_width))
          (m.differentiation_matrix.getD 0 [])
      rw [keyGet_ok_getD [] hd, keyGet_ok_getD grid.dummy hg, ← hs1]
    · intro h2
      exfalso
      have : m.dimensions = 2 := h2
      omega
  · by_cases h2 : m.dimensions = 2
    · rw [if_neg h1, if_pos h2] at h
      rw [ebind_eq_ok] at h
      obtain ⟨dx, hdx, h⟩ := h
      rw [ebind_eq_ok] at h
      obtain ⟨gx, hgx, h⟩ := h
      rw [ebind_eq_ok] at h
      obtain ⟨sx, hsx, h⟩ := h
      rw [ebind_eq_ok] at h
      obtain ⟨dy, hdy, h⟩ := h
      rw [ebind_eq_ok] at h
      obtain ⟨gy, hgy, h⟩ := h
      rw [ebind_eq_ok] at h
      obtain ⟨sy, hsy, h⟩ := h
      injection h with h
      subst h
      obtain ⟨hsx0, hsx1⟩ := pyDiv_ok.mp hsx
      obtain ⟨hsy0, hsy1⟩ := pyDiv_ok.mp hsy
      refine ⟨rfl, rfl, rfl, rfl, rfl, rfl, rfl, ?_, ?_, ?_⟩
      · unfold CartesianMesh.set_laplacian
        rw [if_neg (show ¬(⟨m.dimensions, m.n_cells, m.cordinates, m.mesh_type, m.grid,
            m.differentiation_matrix, m.boundary_condition,
            matAdd (npKron (npIdentity gy.n_cells.toNat) (matScale sx dx))
              (npKron (matScale sy dy) (npIdentity gx.n_cells.toNat))⟩ :
              CartesianMesh).dimensions = 1 from h1)]
        rw [if_pos (show (⟨m.dimensions, m.n_cells, m.cordinates, m.mesh_type, m.grid,
            m.differentiation_matrix, m.boundary_condition,
            matAdd (npKron (npIdentity gy.n_cells.toNat) (matScale sx dx))
              (npKron (matScale sy dy) (npIdentity gx.n_cells.toNat))⟩ :
              CartesianMesh).dimensions = 2 from h2)]
        rw [show keyGet (⟨m.dimensions, m.n_cells, m.cordinates, m.mesh_type, m.grid,
            m.differentiation_matrix, m.boundary_condition,
            matAdd (npKron (npIdentity gy.n_cells.toNat) (matScale sx dx))
              (npKron (matScale sy dy) (npIdentity gx.n_cells.toNat))⟩ :
              CartesianMesh).differentiation_matrix 0 = .ok dx from hdx, ebind_ok]
        rw [show keyGet (⟨m.dimensions, m.n_cells, m.cordinates, m.mesh_type, m.grid,
            m.differentiation_matrix, m.boundary_condition,
            matAdd (npKron (npIdentity gy.n_cells.toNat) (matScale sx dx))
              (npKron (matScale sy dy) (npIdentity gx.n_cells.toNat))⟩ :
              CartesianMesh).grid 0 = .ok gx from hgx, ebind_ok]
        rw [hsx, ebind_ok]
        rw [show keyGet (⟨m.dimensions, m.n_cells, m.cordinates, m.mesh_type, m.grid,
            m.differentiation_matrix, m.boundary_condition,
            matAdd (npKron (npIdentity gy.n_cells.toNat) (matScale sx dx))
              (npKron (matScale sy dy) (npIdentity gx.n_cells.toNat))⟩ :
              CartesianMesh).differentiation_matrix 1 = .ok dy from hdy, ebind_ok]
        rw [show keyGet (⟨m.dimensions, m.n_cells, m.cordinates, m.mesh_type, m.grid,
            m.differentiation_matrix, m.boundary_condition,
            matAdd (npKron (npIdentity gy.n_cells.toNat) (matScale sx dx))
              (npKron (matScale sy dy) (npIdentity gx.n_cells.toNat))⟩ :
              CartesianMesh).grid 1 = .ok gy from hgy, ebind_ok]
        rw [hsy, ebind_ok]
      · intro hx
        exfalso
        have : m.dimensions = 1 := hx
        omega
      · intro _
        unfold lapFormula2 xDiff yDiff xGrid yGrid
        show matAdd (npKron (npIdentity gy.n_cells.toNat) (matScale sx dx))
            (npKron (matScale sy dy) (npIdentity gx.n_cells.toNat)) =
          matAdd
            (npKron (npIdentity (m.grid.getD 1 grid.dummy).n_cells.toNat)
              (matScale (1 / ((m.grid.getD 0 grid.dummy).cell_width * (m.grid.getD 0 grid.dummy).cell_width))
                (m.differentiation_matrix.getD 0 [])))
            (npKron
              (matScale (1 / ((m.grid.getD 1 grid.dummy).cell_width * (m.grid.getD 1 grid.dummy).cell_width))
                (m.differentiation_matrix.getD 1 []))
              (npIdentity (m.grid.getD 0 grid.dummy).n_cells.toNat))
        rw [keyGet_ok_getD [] hdx, keyGet_ok_getD [] hdy, keyGet_ok_getD grid.dummy hgx,
          keyGet_ok_getD grid.dummy hgy, ← hsx1, ← hsy1]
    · rw [if_neg h1, if_neg h2] at h
      injection h with h
      subst h
      refine ⟨rfl, rfl, rfl, rfl, rfl, rfl, rfl, ?_, ?_, ?_⟩
      · unfold CartesianMesh.set_laplacian
        rw [if_neg h1, if_neg h2]
      · intro hx
        exact absurd hx h1
      · intro hx
        exact absurd hx h2

theorem set_dirichlet_tail {m m' : CartesianMesh} {side : String} {phi : ℚ}
    (h : m.set_dirichlet_boundary side phi = .ok m') :
    ∃ mm : CartesianMesh, mm.set_laplacian = .ok m' := by
  unfold CartesianMesh.set_dirichlet_boundary at h
  rw [ebind_eq_ok] at h
  obtain ⟨m₁, _, h⟩ := h
  rw [ebind_eq_ok] at h
  obtain ⟨m₂, _, h⟩ := h
  exact ⟨m₂, h⟩

theorem set_neumann_tail {m m' : CartesianMesh} {side : String} {flux : ℚ}
    (h : m.set_neumann_boundary side flux = .ok m') :
    ∃ mm : CartesianMesh, mm.set_laplacian = .ok m' := by
  unfold CartesianMesh.set_neumann_boundary at h
  rw [ebind_eq_ok] at h
  obtain ⟨m₁, _, h⟩ := h
  exact ⟨m₁, h⟩

theorem applyOp_tail {m m' : CartesianMesh} {op : BoundaryOp}
    (h : applyOp m op = .ok m') : ∃ mm : CartesianMesh, mm.set_laplacian = .ok m' := by
  cases op with
  | dirichlet side phi => exact set_dirichlet_tail h
  | neumann side flux => exact set_neumann_tail h

theorem construct_tail {d : ℤ} {nc : List ℤ} {cs : List (ℚ × ℚ)} {mt : String}
    {m₀ : CartesianMesh} (h : CartesianMesh.construct d nc cs mt = .ok m₀) :
    ∃ mm : CartesianMesh, mm.set_laplacian = .ok m₀ := by
  unfold CartesianMesh.construct at h
  rw [ebind_eq_ok] at h
  obtain ⟨_, _, h⟩ := h
  rw [ebind_eq_ok] at h
  obtain ⟨grids, _, h⟩ := h
  rw [ebind_eq_ok] at h
  obtain ⟨diffs, _, h⟩ := h
  rw [ebind_eq_ok] at h
  obtain ⟨bcs, _, h⟩ := h
  exact ⟨_, h⟩

theorem runOps_stable : ∀ (ops : List BoundaryOp) (m m' : CartesianMesh),
    m.set_laplacian = .ok m → runOps m ops = .ok m' → m'.set_laplacian = .ok m'
  | [], m, m', hInv, h => by
    unfold runOps at h
    rw [List.foldlM_nil, epure] at h
    injection h with h
    subst h
    exact hInv
  | op :: ops, m, m', hInv, h => by
    unfold runOps at h
    rw [List.foldlM_cons] at h
    rw [ebind_eq_ok] at h
    obtain ⟨m₁, h1, h⟩ := h
    obtain ⟨mm, hmm⟩ := applyOp_tail h1
    exact runOps_stable ops m₁ m'
      ((set_laplacian_ok_props hmm).2.2.2.2.2.2.2.1) h

theorem buildRun_stable {d : ℤ} {nc : List ℤ} {cs : List (ℚ × ℚ)} {mt : String}
    {ops : List BoundaryOp} {m : CartesianMesh}
    (h : buildRun d nc cs mt ops = .ok m) : m.set_laplacian = .ok m := by
  unfold buildRun at h
  rw [ebind_eq_ok] at h
  obtain ⟨m₀, hc, hr⟩ := h
  obtain ⟨mm, hmm⟩ := construct_tail hc
  exact runOps_stable ops m₀ m ((set_laplacian_ok_props hmm).2.2.2.2.2.2.2.1) hr

theorem IsMat_row_len {r c : ℕ} {M : Mat} (h : IsMat r c M) {i : ℕ} (hi : i < r) :
    (M.getD i []).length = c :=
  h.2 _ (getD_mem M i [] (h.1 ▸ hi))

theorem matGet_matNeg (M : Mat) (i j : ℕ) : matGet (matNeg M) i j = -(matGet M i j) := by
  unfold matGet matNeg
  simp only [List.getD_eq_getElem?_getD, List.getElem?_map]
  cases hM : M[i]? with
  | none => simp
  | some row =>
    simp only [Option.map_some', Option.getD_some, List.getElem?_map]
    cases hrow : row[j]? <;> simp

theorem matGet_npTranspose (M : Mat) (i j : ℕ) (hi : i < matCols M) (hj : j < matRows M) :
    matGet (npTranspose M) i j = matGet M j i := by
  unfold npTranspose
  rw [matGet_mkMat _ _ _ _ _ hi hj]

theorem IsMat_set_diagonal (n : ℕ) (lo mi up : ℚ) : IsMat n n (set_diagonal n lo mi up) := by
  unfold set_diagonal spdiags
  exact IsMat_mkMat _ _ _

theorem matRows_set_diagonal (n : ℕ) (lo mi up : ℚ) : matRows (set_diagonal n lo mi up) = n :=
  matRows_of_IsMat (IsMat_set_diagonal n lo mi up)

theorem matCols_set_diagonal (n : ℕ) (lo mi up : ℚ) (h : 0 < n) :
    matCols (set_diagonal n lo mi up) = n :=
  matCols_of_IsMat (IsMat_set_diagonal n lo mi up) h

theorem npLinspace_props {s e : ℚ} {n : ℤ} (hn : 1 ≤ n) :
    ∃ coords, npLinspace s e n = .ok coords ∧ coords.length = n.toNat ∧
      ∀ i : ℕ, i < n.toNat → coords.getD i 0 =
        if n = 1 then s else s + (i : ℚ) * ((e - s) / ((n : ℚ) - 1)) := by
  unfold npLinspace
  rw [if_neg (by omega)]
  by_cases h1 : n = 1
  · subst h1
    refine ⟨[s], by rw [if_pos rfl], by simp, ?_⟩
    intro i hi
    have h0 : i = 0 := by omega
    subst h0
    rw [if_pos rfl]
    rfl
  · rw [if_neg h1]
    refine ⟨_, rfl, by simp, ?_⟩
    intro i hi
    rw [if_neg h1, List.getD_eq_getElem?_getD, List.getElem?_map, List.getElem?_range hi]
    rfl

theorem validate_inputs_ok {nc : List ℤ} {cs : List (ℚ × ℚ)} {d : ℤ} {mt : String}
    (h2 : ¬ 2 < d) (hcs : (cs.length : ℤ) = d) (hnc : (nc.length : ℤ) = d)
    (hsub : strContains mt "finite_volume" = true) :
    CartesianMesh.validate_inputs nc cs d mt = .ok () := by
  unfold CartesianMesh.validate_inputs
  rw [if_neg h2, if_neg (by omega), if_neg (by omega), if_neg (by simp [hsub])]

theorem validate_inputs_cases (nc : List ℤ) (cs : List (ℚ × ℚ)) (d : ℤ) (mt : String) :
    CartesianMesh.validate_inputs nc cs d mt = .ok () ∨
    ∃ s, CartesianMesh.validate_inputs nc cs d mt = .error (.valueError s) := by
  unfold CartesianMesh.validate_inputs
  split_ifs <;> first | exact Or.inl rfl | exact Or.inr ⟨_, rfl⟩

theorem validate_inputs_ok_sub {nc : List ℤ} {cs : List (ℚ × ℚ)} {d : ℤ} {mt : String}
    (h : CartesianMesh.validate_inputs nc cs d mt = .ok ()) :
    strContains mt "finite_volume" = true := by
  unfold CartesianMesh.validate_inputs at h
  split_ifs at h with h1 h2 h3 h4
  simpa using h4

theorem grid_construct_bad_mt (n : ℤ) (c : ℚ × ℚ) {mt : String}
    (h1 : mt ≠ "finite_volume") (h2 : mt ≠ "finite_difference") :
    grid.construct n c mt = .error (.valueError "Mesh type not supported") := by
  unfold grid.construct
  rw [if_neg h1, if_neg h2]

theorem fd_not_substring : strContains "finite_difference" "finite_volume" = false := by
  decide

/-! ### Claim theorems -/

/-- Claim C1: for every successfully constructed `CartesianMesh`, after
construction and after every successful `set_dirichlet_boundary` or
`set_neumann_boundary` call, the `laplacian` attribute equals the 1D rescaled
stencil (in 1D) or `kron(Iy, Dxx) + kron(Dyy, Ix)` (in 2D, with x varying
fastest in the flattened ordering `k = iy * x_n_cells + ix`), and recomputing
the Laplacian again without an intervening mutation returns the same mesh. -/
theorem C1_laplacian_invariant
    (d : ℤ) (nc : List ℤ) (cs : List (ℚ × ℚ)) (mt : String)
    (ops : List BoundaryOp) (m : CartesianMesh)
    (h : buildRun d nc cs mt ops = .ok m) :
    (m.dimensions = 1 → m.laplacian = lapFormula1 m) ∧
    (m.dimensions = 2 → m.laplacian = lapFormula2 m) ∧
    m.set_laplacian = .ok m ∧
    (∀ nx ny : ℕ, m.dimensions = 2 →
      IsMat nx nx (xDiff m) → IsMat ny ny (yDiff m) →
      nx = (xGrid m).n_cells.toNat → ny = (yGrid m).n_cells.toNat →
      ∀ ix jx iy jy : ℕ, ix < nx → jx < nx → iy < ny → jy < ny →
        matGet m.laplacian (iy * nx + ix) (jy * nx + jx) =
          (if iy = jy then matGet (xDiff m) ix jx * (1 / ((xGrid m).cell_width * (xGrid m).cell_width)) else 0) +
          (if ix = jx then matGet (yDiff m) iy jy * (1 / ((yGrid m).cell_width * (yGrid m).cell_width)) else 0)) := by
  have hstable := buildRun_stable h
  have props := set_laplacian_ok_props hstable
  have f1 := props.2.2.2.2.2.2.2.2.1
  have f2 := props.2.2.2.2.2.2.2.2.2
  refine ⟨f1, f2, props.2.2.2.2.2.2.2.1, ?_⟩
  intro nx ny h2 hx hy hnx hny ix jx iy jy hix hjx hiy hjy
  rw [f2 h2]
  unfold lapFormula2
  rw [← hnx, ← hny]
  rw [kron_sum_entry (matScale (1 / ((xGrid m).cell_width * (xGrid m).cell_width)) (xDiff m))
      (matScale (1 / ((yGrid m).cell_width * (yGrid m).cell_width)) (yDiff m))
      (IsMat_matScale hx _) (IsMat_matScale hy _) ix jx iy jy hix hjx hiy hjy,
    matGet_matScale, matGet_matScale]

/-- Witness for C1 at a concrete 2D mesh with one Dirichlet mutation. -/
theorem C1_laplacian_invariant_witness :
    ∃ m : CartesianMesh,
      buildRun 2 [2, 3] [(0, 1), (0, 2)] "finite_volume"
        [.dirichlet "left" 30] = .ok m ∧
      ((m.dimensions = 1 → m.laplacian = lapFormula1 m) ∧
       (m.dimensions = 2 → m.laplacian = lapFormula2 m) ∧
       m.set_laplacian = .ok m ∧
       (∀ nx ny : ℕ, m.dimensions = 2 →
         IsMat nx nx (xDiff m) → IsMat ny ny (yDiff m) →
         nx = (xGrid m).n_cells.toNat → ny = (yGrid m).n_cells.toNat →
         ∀ ix jx iy jy : ℕ, ix < nx → jx < nx → iy < ny → jy < ny →
           matGet m.laplacian (iy * nx + ix) (jy * nx + jx) =
             (if iy = jy then matGet (xDiff m) ix jx * (1 / ((xGrid m).cell_width * (xGrid m).cell_width))
              else 0) +
             (if ix = jx then matGet (yDiff m) iy jy * (1 / ((yGrid m).cell_width * (yGrid m).cell_width))
              else 0))) := by
  obtain ⟨m, hm⟩ := isOkB_ok (show isOkB (buildRun 2 [2, 3] [(0, 1), (0, 2)]
    "finite_volume" [.dirichlet "left" 30]) = true by with_unfolding_all decide)
  exact ⟨m, hm, C1_laplacian_invariant _ _ _ _ _ _ hm⟩

/-- Claim C6 (code bug): `side_selector.boundary_index` and
`first_interior_index` return 0 / −1 (Python last index) and 1 / −2 for
"left" / "right", but raise `ValueError` for "top" and "bottom", even though
the claim (with the spec and the repository's 2D `CartesianMesh` tests, which
route "top"/"bottom" through `side_selector`) requires "top" to map to index 0
and "bottom" to the last index. -/
theorem C6_side_selector_eval :
    side_selector.boundary_index "left" = .ok 0 ∧
    side_selector.boundary_index "right" = .ok (-1) ∧
    side_selector.first_interior_index "left" = .ok 1 ∧
    side_selector.first_interior_index "right" = .ok (-2) ∧
    side_selector.boundary_index "top" =
      .error (.valueError "Side must input must be left or right") ∧
    side_selector.boundary_index "bottom" =
      .error (.valueError "Side must input must be left or right") ∧
    side_selector.first_interior_index "top" =
      .error (.valueError "Side must input must be left or right") ∧
    side_selector.first_interior_index "bottom" =
      .error (.valueError "Side must input must be left or right") := by
  with_unfolding_all decide

/-- Claim C10: constructing a grid with `n_cells = 1` under the node-centered
(finite_difference) family divides by `n_cells - 1 = 0` and raises
`ZeroDivisionError` for every bounds pair; no grid object is produced. -/
theorem C10_node_grid_single_cell (c : ℚ × ℚ) :
    grid.construct 1 c "finite_difference" = .error .zeroDivisionError := by
  unfold grid.construct
  rw [if_neg (by decide), if_pos rfl]
  rw [show pyDiv (c.2 - c.1) (((1 : ℤ) : ℚ) - 1) = .error .zeroDivisionError from by
    unfold pyDiv
    rw [if_pos (by norm_num)], ebind_err]

/-- Claim C5: under the cell-centered family, `cell_width = (max-min)/N` and
`cell_coordinates[i] = min + cell_width*(i+0.5)`; under the node-centered
family with `N ≥ 2`, `cell_width = (max-min)/(N-1)` and
`cell_coordinates[i] = min + cell_width*i`; the coordinates have length `N`,
are strictly increasing and are uniformly spaced by `cell_width`. -/
theorem C5_axis_grid_formulas (n : ℤ) (a b : ℚ) (hab : a < b) (g : grid) :
    (1 ≤ n → grid.construct n (a, b) "finite_volume" = .ok g →
      g.cell_width = (b - a) / (n : ℚ) ∧
      0 < g.cell_width ∧
      g.cell_cordinates.length = n.toNat ∧
      (∀ i : ℕ, i < n.toNat →
        g.cell_cordinates.getD i 0 = a + g.cell_width * ((i : ℚ) + 1/2)) ∧
      (∀ i : ℕ, i + 1 < n.toNat →
        g.cell_cordinates.getD i 0 < g.cell_cordinates.getD (i + 1) 0 ∧
        g.cell_cordinates.getD (i + 1) 0 - g.cell_cordinates.getD i 0 = g.cell_width)) ∧
    (2 ≤ n → grid.construct n (a, b) "finite_difference" = .ok g →
      g.cell_width = (b - a) / ((n : ℚ) - 1) ∧
      0 < g.cell_width ∧
      g.cell_cordinates.length = n.toNat ∧
      (∀ i : ℕ, i < n.toNat →
        g.cell_cordinates.getD i 0 = a + g.cell_width * (i : ℚ)) ∧
      (∀ i : ℕ, i + 1 < n.toNat →
        g.cell_cordinates.getD i 0 < g.cell_cordinates.getD (i + 1) 0 ∧
        g.cell_cordinates.getD (i + 1) 0 - g.cell_cordinates.getD i 0 = g.cell_width)) := by
  constructor
  · intro hn hok
    unfold grid.construct at hok
    rw [if_pos rfl] at hok
    rw [ebind_eq_ok] at hok
    obtain ⟨w, hw, hok⟩ := hok
    obtain ⟨hwnz, hwv⟩ := pyDiv_ok.mp hw
    rw [ebind_eq_ok] at hok
    obtain ⟨coords, hcoords, hok⟩ := hok
    injection hok with hok
    have hgw : g.cell_width = w := by rw [← hok]
    have hgc : g.cell_cordinates = coords := by rw [← hok]
    obtain ⟨coords', hc', hlen', hval'⟩ :=
      npLinspace_props (s := a + w / 2) (e := b - w / 2) (n := n) hn
    rw [hcoords] at hc'
    injection hc' with hc'
    subst hc'
    have hnq : (1 : ℚ) ≤ ((n : ℤ) : ℚ) := by exact_mod_cast hn
    have hpos : 0 < w := by
      rw [hwv]
      apply div_pos (by simpa using hab) (by simpa using by linarith : (0:ℚ) < ((n:ℤ):ℚ))
    have hval : ∀ i : ℕ, i < n.toNat →
        coords.getD i 0 = a + w * ((i : ℚ) + 1/2) := by
      intro i hi
      rw [hval' i hi]
      by_cases h1 : n = 1
      · rw [if_pos h1]
        have h0 : i = 0 := by omega
        subst h0
        push_cast
        ring
      · rw [if_neg h1]
        have h2 : (2 : ℚ) ≤ ((n : ℤ) : ℚ) := by exact_mod_cast (by omega : (2:ℤ) ≤ n)
        have hba : b - a = w * ((n : ℤ) : ℚ) := by
          rw [hwv]
          field_simp
        have hstep : (b - w / 2 - (a + w / 2)) / (((n : ℤ) : ℚ) - 1) = w := by
          rw [show b - w / 2 - (a + w / 2) = (b - a) - w by ring, hba,
            show w * ((n : ℤ) : ℚ) - w = w * (((n : ℤ) : ℚ) - 1) by ring]
          rw [mul_div_assoc, div_self (by linarith), mul_one]
        rw [hstep]
        ring
    rw [hgw, hgc]
    refine ⟨hwv, hpos, hlen', hval, ?_⟩
    intro i hi
    rw [hval i (by omega), hval (i + 1) (by omega)]
    constructor
    · push_cast
      nlinarith
    · push_cast
      ring
  · intro hn hok
    unfold grid.construct at hok
    rw [if_neg (by decide), if_pos rfl] at hok
    rw [ebind_eq_ok] at hok
    obtain ⟨w, hw, hok⟩ := hok
    obtain ⟨hwnz, hwv⟩ := pyDiv_ok.mp hw
    rw [ebind_eq_ok] at hok
    obtain ⟨coords, hcoords, hok⟩ := hok
    injection hok with hok
    have hgw : g.cell_width = w := by rw [← hok]
    have hgc : g.cell_cordinates = coords := by rw [← hok]
    obtain ⟨coords', hc', hlen', hval'⟩ :=
      npLinspace_props (s := a) (e := b) (n := n) (by omega)
    rw [hcoords] at hc'
    injection hc' with hc'
    subst hc'
    have h2 : (2 : ℚ) ≤ ((n : ℤ) : ℚ) := by exact_mod_cast hn
    have hpos : 0 < w := by
      rw [hwv]
      apply div_pos (by simpa using hab) (by linarith)
    have hval : ∀ i : ℕ, i < n.toNat →
        coords.getD i 0 = a + w * (i : ℚ) := by
      intro i hi
      rw [hval' i hi, if_neg (by omega), hwv]
      ring
    rw [hgw, hgc]
    refine ⟨hwv, hpos, hlen', hval, ?_⟩
    intro i hi
    rw [hval i (by omega), hval (i + 1) (by omega)]
    constructor
    · push_cast
      nlinarith
    · push_cast
      ring

/-- Witness for C5 on the 4-cell unit-interval grids of both families. -/
theorem C5_axis_grid_formulas_witness :
    ∃ g₁ g₂ : grid,
      grid.construct 4 ((0 : ℚ), 1) "finite_volume" = .ok g₁ ∧
      g₁.cell_width = 1/4 ∧ g₁.cell_cordinates.getD 0 0 = 0 + g₁.cell_width * (0 + 1/2) ∧
      grid.construct 4 ((0 : ℚ), 1) "finite_difference" = .ok g₂ ∧
      g₂.cell_width = 1/3 ∧ g₂.cell_cordinates.getD 2 0 = 0 + g₂.cell_width * 2 := by
  obtain ⟨g₁, hg₁⟩ := isOkB_ok
    (show isOkB (grid.construct 4 ((0 : ℚ), 1) "finite_volume") = true by
      with_unfolding_all decide)
  obtain ⟨g₂, hg₂⟩ := isOkB_ok
    (show isOkB (grid.construct 4 ((0 : ℚ), 1) "finite_difference") = true by
      with_unfolding_all decide)
  have h₁ := (C5_axis_grid_formulas 4 0 1 (by norm_num) g₁).1 (by decide) hg₁
  have h₂ := (C5_axis_grid_formulas 4 0 1 (by norm_num) g₂).2 (by decide) hg₂
  refine ⟨g₁, g₂, hg₁, ?_, ?_, hg₂, ?_, ?_⟩
  · rw [h₁.1]; norm_num
  · rw [h₁.2.2.2.1 0 (by decide)]; norm_num
  · rw [h₂.1]; norm_num
  · rw [h₂.2.2.2.1 2 (by decide)]
    norm_num

theorem IsMat_matNeg {r c : ℕ} {M : Mat} (h : IsMat r c M) : IsMat r c (matNeg M) := by
  obtain ⟨hlen, hrow⟩ := h
  refine ⟨by simp [matNeg, hlen], ?_⟩
  intro row hmem
  simp only [matNeg, List.mem_map] at hmem
  obtain ⟨row₀, hmem₀, rfl⟩ := hmem
  simpa using hrow row₀ hmem₀

theorem IsMat_npTranspose {r : ℕ} {M : Mat} (h : IsMat r r M) (hr : 0 < r) :
    IsMat r r (npTranspose M) := by
  unfold npTranspose
  rw [matCols_of_IsMat h hr, matRows_of_IsMat h]
  exact IsMat_mkMat _ _ _

/-- Claim C4: each stencil family builds an exactly tridiagonal `N × N` matrix
from its `(lower, middle, upper)` coefficient triple — standard `(1, -2, 1)`,
upwind `(1, -1, 0)`, central `(1/2, 0, -1/2)`, MacCormack predictor
`(-1, 1, 0)` — with every entry off the three diagonals exactly zero, and the
MacCormack variant derives `predictor_matrix = -transpose(coefficients)` at
construction. -/
theorem C4_stencil_matrices (n : ℤ) (hn : 1 ≤ n) :
    ∃ D U C M P : Mat,
      differentiation_matrix.construct n = .ok D ∧
      upwind_differentiation_matrix n = .ok U ∧
      central_differentiation_matrix n = .ok C ∧
      maccormack_differentiation_matrix n = .ok M ∧
      maccormack_predictor_matrix n = .ok P ∧
      IsMat n.toNat n.toNat D ∧ IsMat n.toNat n.toNat U ∧ IsMat n.toNat n.toNat C ∧
      IsMat n.toNat n.toNat M ∧ IsMat n.toNat n.toNat P ∧
      (∀ i j : ℕ, i < n.toNat → j < n.toNat →
        matGet D i j =
          (if i = j + 1 then 1 else if i = j then -2 else if j = i + 1 then 1 else 0) ∧
        matGet U i j =
          (if i = j + 1 then 1 else if i = j then -1 else if j = i + 1 then 0 else 0) ∧
        matGet C i j =
          (if i = j + 1 then 1/2 else if i = j then 0 else if j = i + 1 then -1/2 else 0) ∧
        matGet M i j =
          (if i = j + 1 then -1 else if i = j then 1 else if j = i + 1 then 0 else 0) ∧
        matGet P i j = -(matGet M j i)) ∧
      (∀ i j : ℕ, i < n.toNat → j < n.toNat → i ≠ j → i ≠ j + 1 → j ≠ i + 1 →
        matGet D i j = 0 ∧ matGet U i j = 0 ∧ matGet C i j = 0 ∧ matGet M i j = 0 ∧
        matGet P i j = 0) := by
  have hnn : ¬ n < 0 := by omega
  have hN : 0 < n.toNat := by omega
  have hU : upwind_differentiation_matrix n = .ok (set_diagonal n.toNat 1 (-1) 0) := by
    unfold upwind_differentiation_matrix npOnesLen
    rw [if_neg hnn, ebind_ok]
  have hC : central_differentiation_matrix n = .ok (set_diagonal n.toNat (1/2) 0 (-1/2)) := by
    unfold central_differentiation_matrix npOnesLen
    rw [if_neg hnn, ebind_ok]
  have hM : maccormack_differentiation_matrix n = .ok (set_diagonal n.toNat (-1) 1 0) := by
    unfold maccormack_differentiation_matrix npOnesLen
    rw [if_neg hnn, ebind_ok]
  have hP : maccormack_predictor_matrix n =
      .ok (matNeg (npTranspose (set_diagonal n.toNat (-1) 1 0))) := by
    unfold maccormack_predictor_matrix
    rw [hM, ebind_ok]
  have hPentry : ∀ i j : ℕ, i < n.toNat → j < n.toNat →
      matGet (matNeg (npTranspose (set_diagonal n.toNat (-1) 1 0))) i j =
        -(matGet (set_diagonal n.toNat (-1) 1 0) j i) := by
    intro i j hi hj
    rw [matGet_matNeg, matGet_npTranspose _ _ _
      (by rw [matCols_set_diagonal _ _ _ _ hN]; exact hi)
      (by rw [matRows_set_diagonal]; exact hj)]
  refine ⟨set_diagonal n.toNat 1 (-2) 1, set_diagonal n.toNat 1 (-1) 0,
    set_diagonal n.toNat (1/2) 0 (-1/2), set_diagonal n.toNat (-1) 1 0,
    matNeg (npTranspose (set_diagonal n.toNat (-1) 1 0)),
    dm_construct_ok hnn, hU, hC, hM, hP,
    IsMat_set_diagonal _ _ _ _, IsMat_set_diagonal _ _ _ _, IsMat_set_diagonal _ _ _ _,
    IsMat_set_diagonal _ _ _ _,
    IsMat_matNeg (IsMat_npTranspose (IsMat_set_diagonal _ _ _ _) hN), ?_, ?_⟩
  · intro i j hi hj
    exact ⟨set_diagonal_entry _ _ _ _ i j hi hj, set_diagonal_entry _ _ _ _ i j hi hj,
      set_diagonal_entry _ _ _ _ i j hi hj, set_diagonal_entry _ _ _ _ i j hi hj,
      hPentry i j hi hj⟩
  · intro i j hi hj hne hne1 hne2
    rw [set_diagonal_entry _ _ _ _ i j hi hj, set_diagonal_entry _ _ _ _ i j hi hj,
      set_diagonal_entry _ _ _ _ i j hi hj, set_diagonal_entry _ _ _ _ i j hi hj,
      hPentry i j hi hj, set_diagonal_entry _ _ _ _ j i hj hi]
    refine ⟨?_, ?_, ?_, ?_, ?_⟩ <;> (split_ifs <;> first | (exfalso; omega) | norm_num)

/-- Witness for C4 at a 3-cell stencil. -/
theorem C4_stencil_matrices_witness :
    ∃ D P : Mat, differentiation_matrix.construct 3 = .ok D ∧ matGet D 1 1 = -2 ∧
      matGet D 0 2 = 0 ∧ maccormack_predictor_matrix 3 = .ok P ∧ matGet P 0 1 = 1 := by
  obtain ⟨D, U, C, M, P, h1, _, _, _, h5, _, _, _, _, _, hent, hzero⟩ :=
    C4_stencil_matrices 3 (by decide)
  refine ⟨D, P, h1, ?_, ?_, h5, ?_⟩
  · rw [(hent 1 1 (by decide) (by decide)).1]
    norm_num
  · exact (hzero 0 2 (by decide) (by decide) (by decide) (by decide) (by decide)).1
  · rw [(hent 0 1 (by decide) (by decide)).2.2.2.2,
      (hent 1 0 (by decide) (by decide)).2.2.2.1]
    norm_num

/-- Claim C2: Dirichlet application under the cell-centered scheme sets
`coefficients[i][i] = -3` and the boundary vector entry to `2*value`, leaving
all other entries unchanged; under the node-based scheme it zeroes the whole
stencil row `i` and sets the vector entry to 0. For N=4, bounds (0,1),
value 30, cell-centered, Dirichlet on "left" then "right" yields the stated
stencil and boundary vector `[60, 0, 0, 60]`. -/
theorem C2_dirichlet_application :
    (∀ (N : ℕ) (M : Mat) (side : String), 1 ≤ N → IsMat N N M →
      (side = "left" ∨ side = "right") →
      (∃ M', differentiation_matrix.set_dirichlet_boundary M side "finite_volume" = .ok M' ∧
        matGet M' (if side = "left" then 0 else N - 1)
          (if side = "left" then 0 else N - 1) = -3 ∧
        (∀ a b : ℕ, ¬(a = (if side = "left" then 0 else N - 1) ∧
            b = (if side = "left" then 0 else N - 1)) →
          matGet M' a b = matGet M a b)) ∧
      (∃ M'', differentiation_matrix.set_dirichlet_boundary M side "finite_difference" =
          .ok M'' ∧
        (∀ b : ℕ, b < N → matGet M'' (if side = "left" then 0 else N - 1) b = 0) ∧
        (∀ a b : ℕ, a ≠ (if side = "left" then 0 else N - 1) →
          matGet M'' a b = matGet M a b))) ∧
    (∀ (N : ℕ) (v : Vec) (side : String) (phi : ℚ), 1 ≤ N → v.length = N →
      (side = "left" ∨ side = "right") →
      (∃ b', boundary_condition.set_dirichlet_boundary ⟨v, "finite_volume"⟩ side phi =
          .ok b' ∧
        b'.mesh_type = "finite_volume" ∧
        b'.boundary_condition_array.getD (if side = "left" then 0 else N - 1) 0 = 2 * phi ∧
        (∀ k : ℕ, k ≠ (if side = "left" then 0 else N - 1) →
          b'.boundary_condition_array.getD k 0 = v.getD k 0)) ∧
      (∃ b'', boundary_condition.set_dirichlet_boundary ⟨v, "finite_difference"⟩ side phi =
          .ok b'' ∧
        b''.boundary_condition_array.getD (if side = "left" then 0 else N - 1) 0 = 0 ∧
        (∀ k : ℕ, k ≠ (if side = "left" then 0 else N - 1) →
          b''.boundary_condition_array.getD k 0 = v.getD k 0))) ∧
    okProp (buildRun 1 [4] [(0, 1)] "finite_volume"
        [.dirichlet "left" 30, .dirichlet "right" 30]) (fun m =>
      xDiff m = [[-3, 1, 0, 0], [1, -2, 1, 0], [0, 1, -2, 1], [0, 0, 1, -3]] ∧
      xBC m = [60, 0, 0, 60]) := by
  refine ⟨?_, ?_, ?_⟩
  · intro N M side hN hM hs
    have hlen : M.length = N := hM.1
    rcases hs with rfl | rfl
    · have hidx : (if ("left" : String) = "left" then 0 else N - 1) = 0 := if_pos rfl
      rw [hidx]
      have hfv : differentiation_matrix.set_dirichlet_boundary M "left" "finite_volume" =
          .ok (matSet M 0 0 (-3)) := by
        unfold differentiation_matrix.set_dirichlet_boundary side_selector.boundary_index
        rw [if_pos rfl, ebind_ok, if_pos rfl, hlen, npIndex_zero N (by omega), ebind_ok]
      have hfd : differentiation_matrix.set_dirichlet_boundary M "left" "finite_difference" =
          .ok (matSetRowZero M 0) := by
        unfold differentiation_matrix.set_dirichlet_boundary side_selector.boundary_index
        rw [if_pos rfl, ebind_ok, if_neg (by decide), if_pos rfl, hlen,
          npIndex_zero N (by omega), ebind_ok]
      refine ⟨⟨_, hfv, ?_, ?_⟩, ⟨_, hfd, ?_, ?_⟩⟩
      · exact matGet_matSet_self M 0 0 _ (by omega)
          (by rw [IsMat_row_len hM (by omega)]; omega)
      · intro a b hab
        exact matGet_matSet_ne M 0 0 a b _ hab
      · intro b hb
        exact matGet_matSetRowZero_self M 0 b (by omega)
          (by rw [IsMat_row_len hM (by omega)]; omega)
      · intro a b ha
        exact matGet_matSetRowZero_ne M 0 a b ha
    · have hidx : (if ("right" : String) = "left" then 0 else N - 1) = N - 1 :=
        if_neg (by decide)
      rw [hidx]
      have hfv : differentiation_matrix.set_dirichlet_boundary M "right" "finite_volume" =
          .ok (matSet M (N - 1) (N - 1) (-3)) := by
        unfold differentiation_matrix.set_dirichlet_boundary side_selector.boundary_index
        rw [if_neg (by decide), if_pos rfl, ebind_ok, if_pos rfl, hlen,
          npIndex_neg_one N (by omega), ebind_ok]
      have hfd : differentiation_matrix.set_dirichlet_boundary M "right" "finite_difference" =
          .ok (matSetRowZero M (N - 1)) := by
        unfold differentiation_matrix.set_dirichlet_boundary side_selector.boundary_index
        rw [if_neg (by decide), if_pos rfl, ebind_ok, if_neg (by decide), if_pos rfl, hlen,
          npIndex_neg_one N (by omega), ebind_ok]
      refine ⟨⟨_, hfv, ?_, ?_⟩, ⟨_, hfd, ?_, ?_⟩⟩
      · exact matGet_matSet_self M (N-1) (N-1) _ (by omega)
          (by rw [IsMat_row_len hM (by omega)]; omega)
      · intro a b hab
        exact matGet_matSet_ne M (N-1) (N-1) a b _ hab
      · intro b hb
        exact matGet_matSetRowZero_self M (N-1) b (by omega)
          (by rw [IsMat_row_len hM (by omega)]; omega)
      · intro a b ha
        exact matGet_matSetRowZero_ne M (N-1) a b ha
  · intro N v side phi hN hv hs
    rcases hs with rfl | rfl
    · have hidx : (if ("left" : String) = "left" then 0 else N - 1) = 0 := if_pos rfl
      rw [hidx]
      have hfv : boundary_condition.set_dirichlet_boundary ⟨v, "finite_volume"⟩ "left" phi =
          .ok ⟨v.set 0 (2 * phi), "finite_volume"⟩ := by
        unfold boundary_condition.set_dirichlet_boundary side_selector.boundary_index
        rw [if_pos rfl, ebind_ok,
          if_pos (show (⟨v, "finite_volume"⟩ : boundary_condition).mesh_type =
            "finite_volume" from rfl),
          show (⟨v, "finite_volume"⟩ : boundary_condition).boundary_condition_array.length
            = N from hv,
          npIndex_zero N (by omega), ebind_ok]
      have hfd : boundary_condition.set_dirichlet_boundary ⟨v, "finite_difference"⟩
          "left" phi = .ok ⟨v.set 0 0, "finite_difference"⟩ := by
        unfold boundary_condition.set_dirichlet_boundary side_selector.boundary_index
        rw [if_pos rfl, ebind_ok, if_neg (show ¬(⟨v, "finite_difference"⟩ :
            boundary_condition).mesh_type = "finite_volume" from by simp),
          if_pos (show (⟨v, "finite_difference"⟩ : boundary_condition).mesh_type =
            "finite_difference" from rfl),
          show (⟨v, "finite_difference"⟩ : boundary_condition).boundary_condition_array.length
            = N from hv,
          npIndex_zero N (by omega), ebind_ok]
      refine ⟨⟨_, hfv, rfl, ?_, ?_⟩, ⟨_, hfd, ?_, ?_⟩⟩
      · exact getD_set_self v 0 _ 0 (by omega)
      · intro k hk
        exact getD_set_ne v 0 k _ 0 (Ne.symm hk)
      · rw [getD_set_self v 0 _ 0 (by omega)]
      · intro k hk
        exact getD_set_ne v 0 k _ 0 (Ne.symm hk)
    · have hidx : (if ("right" : String) = "left" then 0 else N - 1) = N - 1 :=
        if_neg (by decide)
      rw [hidx]
      have hfv : boundary_condition.set_dirichlet_boundary ⟨v, "finite_volume"⟩ "right" phi =
          .ok ⟨v.set (N - 1) (2 * phi), "finite_volume"⟩ := by
        unfold boundary_condition.set_dirichlet_boundary side_selector.boundary_index
        rw [if_neg (by decide), if_pos rfl, ebind_ok,
          if_pos (show (⟨v, "finite_volume"⟩ : boundary_condition).mesh_type =
            "finite_volume" from rfl),
          show (⟨v, "finite_volume"⟩ : boundary_condition).boundary_condition_array.length
            = N from hv,
          npIndex_neg_one N (by omega), ebind_ok]
      have hfd : boundary_condition.set_dirichlet_boundary ⟨v, "finite_difference"⟩
          "right" phi = .ok ⟨v.set (N - 1) 0, "finite_difference"⟩ := by
        unfold boundary_condition.set_dirichlet_boundary side_selector.boundary_index
        rw [if_neg (by decide), if_pos rfl, ebind_ok, if_neg (show ¬(⟨v, "finite_difference"⟩ :
            boundary_condition).mesh_type = "finite_volume" from by simp),
          if_pos (show (⟨v, "finite_difference"⟩ : boundary_condition).mesh_type =
            "finite_difference" from rfl),
          show (⟨v, "finite_difference"⟩ : boundary_condition).boundary_condition_array.length
            = N from hv,
          npIndex_neg_one N (by omega), ebind_ok]
      refine ⟨⟨_, hfv, rfl, ?_, ?_⟩, ⟨_, hfd, ?_, ?_⟩⟩
      · exact getD_set_self v (N-1) _ 0 (by omega)
      · intro k hk
        exact getD_set_ne v (N-1) k _ 0 (Ne.symm hk)
      · rw [getD_set_self v (N-1) _ 0 (by omega)]
      · intro k hk
        exact getD_set_ne v (N-1) k _ 0 (Ne.symm hk)
  · with_unfolding_all decide

/-- Witness for C2 on a concrete 2-cell stencil. -/
theorem C2_dirichlet_application_witness :
    ∃ M' : Mat, differentiation_matrix.set_dirichlet_boundary [[-2, 1], [1, -2]] "left"
        "finite_volume" = .ok M' ∧ matGet M' 0 0 = -3 ∧
        matGet M' 1 0 = matGet [[-2, 1], [1, -2]] 1 0 := by
  obtain ⟨⟨M', hM', hdiag, hrest⟩, _⟩ :=
    (C2_dirichlet_application.1 2 [[-2, 1], [1, -2]] "left" (by decide)
      ⟨by decide, by decide⟩ (Or.inl rfl))
  exact ⟨M', hM', by simpa using hdiag, by simpa using hrest 1 0 (by simp)⟩

/-- Claim C3 (counterexample to the claim as stated): after a Neumann call with
flux 30 on the left of the 4-cell unit mesh, the boundary vector entry is
`30 * cell_width = 7.5`, not `flux / cell_width = 120` as the claim's formula
asserts. -/
theorem C3_neumann_flux_formula_counterexample :
    okProp (buildRun 1 [4] [(0, 1)] "finite_volume" [.neumann "left" 30]) (fun m =>
      (xGrid m).cell_width = 1/4 ∧ xBC m = [15/2, 0, 0, 0] ∧
      ¬ xBC m = [30 / (xGrid m).cell_width, 0, 0, 0]) := by
  with_unfolding_all decide

/-- Claim C3 (amended): `set_neumann_boundary(side, flux)` under the
cell-centered scheme sets the stencil entry `coefficients[i][i]` to −1 and the
boundary vector entry at `i` to `flux * cell_width` of that axis, then
recomputes the Laplacian; for N=4, bounds (0,1), flux 30, the stencil's first
row becomes `[-1, 1, 0, 0]` and the boundary vector `[7.5, 0, 0, 0]`. -/
theorem C3_neumann_application :
    (∀ (N : ℕ) (M : Mat) (side : String), 1 ≤ N → IsMat N N M →
      (side = "left" ∨ side = "right") →
      ∃ M', differentiation_matrix.set_neumann_boundary M side "finite_volume" = .ok M' ∧
        matGet M' (if side = "left" then 0 else N - 1)
          (if side = "left" then 0 else N - 1) = -1 ∧
        (∀ a b : ℕ, ¬(a = (if side = "left" then 0 else N - 1) ∧
            b = (if side = "left" then 0 else N - 1)) →
          matGet M' a b = matGet M a b)) ∧
    (∀ (N : ℕ) (v : Vec) (side : String) (flux w : ℚ), 1 ≤ N → v.length = N →
      (side = "left" ∨ side = "right") →
      ∃ b', boundary_condition.set_neumann_boundary ⟨v, "finite_volume"⟩ side flux w =
          .ok b' ∧
        b'.boundary_condition_array.getD (if side = "left" then 0 else N - 1) 0 =
          flux * w ∧
        (∀ k : ℕ, k ≠ (if side = "left" then 0 else N - 1) →
          b'.boundary_condition_array.getD k 0 = v.getD k 0)) ∧
    okProp (buildRun 1 [4] [(0, 1)] "finite_volume" [.neumann "left" 30]) (fun m =>
      xDiff m = [[-1, 1, 0, 0], [1, -2, 1, 0], [0, 1, -2, 1], [0, 0, 1, -2]] ∧
      xBC m = [15/2, 0, 0, 0] ∧
      m.laplacian = matScale 16 (xDiff m)) := by
  refine ⟨?_, ?_, ?_⟩
  · intro N M side hN hM hs
    have hlen : M.length = N := hM.1
    rcases hs with rfl | rfl
    · have hidx : (if ("left" : String) = "left" then 0 else N - 1) = 0 := if_pos rfl
      rw [hidx]
      have hfv : differentiation_matrix.set_neumann_boundary M "left" "finite_volume" =
          .ok (matSet M 0 0 (-1)) := by
        unfold differentiation_matrix.set_neumann_boundary side_selector.boundary_index
          side_selector.first_interior_index
        rw [if_pos rfl, ebind_ok, if_pos rfl, ebind_ok, if_pos rfl, hlen,
          npIndex_zero N (by omega), ebind_ok]
      refine ⟨_, hfv, ?_, ?_⟩
      · exact matGet_matSet_self M 0 0 _ (by omega)
          (by rw [IsMat_row_len hM (by omega)]; omega)
      · intro a b hab
        exact matGet_matSet_ne M 0 0 a b _ hab
    · have hidx : (if ("right" : String) = "left" then 0 else N - 1) = N - 1 :=
        if_neg (by decide)
      rw [hidx]
      have hfv : differentiation_matrix.set_neumann_boundary M "right" "finite_volume" =
          .ok (matSet M (N - 1) (N - 1) (-1)) := by
        unfold differentiation_matrix.set_neumann_boundary side_selector.boundary_index
          side_selector.first_interior_index
        rw [if_neg (by decide), if_pos rfl, ebind_ok, if_neg (by decide), if_pos rfl,
          ebind_ok, if_pos rfl, hlen, npIndex_neg_one N (by omega), ebind_ok]
      refine ⟨_, hfv, ?_, ?_⟩
      · exact matGet_matSet_self M (N-1) (N-1) _ (by omega)
          (by rw [IsMat_row_len hM (by omega)]; omega)
      · intro a b hab
        exact matGet_matSet_ne M (N-1) (N-1) a b _ hab
  · intro N v side flux w hN hv hs
    rcases hs with rfl | rfl
    · have hidx : (if ("left" : String) = "left" then 0 else N - 1) = 0 := if_pos rfl
      rw [hidx]
      have hfv : boundary_condition.set_neumann_boundary ⟨v, "finite_volume"⟩ "left"
          flux w = .ok ⟨v.set 0 (flux * w), "finite_volume"⟩ := by
        unfold boundary_condition.set_neumann_boundary side_selector.boundary_index
        rw [if_pos rfl, ebind_ok,
          if_pos (show (⟨v, "finite_volume"⟩ : boundary_condition).mesh_type =
            "finite_volume" from rfl),
          show (⟨v, "finite_volume"⟩ : boundary_condition).boundary_condition_array.length
            = N from hv,
          npIndex_zero N (by omega), ebind_ok]
      refine ⟨_, hfv, ?_, ?_⟩
      · exact getD_set_self v 0 _ 0 (by omega)
      · intro k hk
        exact getD_set_ne v 0 k _ 0 (Ne.symm hk)
    · have hidx : (if ("right" : String) = "left" then 0 else N - 1) = N - 1 :=
        if_neg (by decide)
      rw [hidx]
      have hfv : boundary_condition.set_neumann_boundary ⟨v, "finite_volume"⟩ "right"
          flux w = .ok ⟨v.set (N - 1) (flux * w), "finite_volume"⟩ := by
        unfold boundary_condition.set_neumann_boundary side_selector.boundary_index
        rw [if_neg (by decide), if_pos rfl, ebind_ok,
          if_pos (show (⟨v, "finite_volume"⟩ : boundary_condition).mesh_type =
            "finite_volume" from rfl),
          show (⟨v, "finite_volume"⟩ : boundary_condition).boundary_condition_array.length
            = N from hv,
          npIndex_neg_one N (by omega), ebind_ok]
      refine ⟨_, hfv, ?_, ?_⟩
      · exact getD_set_self v (N-1) _ 0 (by omega)
      · intro k hk
        exact getD_set_ne v (N-1) k _ 0 (Ne.symm hk)
  · with_unfolding_all decide

/-- Witness for C3 on a concrete 2-cell stencil and vector. -/
theorem C3_neumann_application_witness :
    ∃ M' : Mat, differentiation_matrix.set_neumann_boundary [[-2, 1], [1, -2]] "left"
        "finite_volume" = .ok M' ∧ matGet M' 0 0 = -1 ∧
    ∃ b' : boundary_condition,
      boundary_condition.set_neumann_boundary ⟨[0, 0], "finite_volume"⟩ "left" 3 5 =
        .ok b' ∧ b'.boundary_condition_array.getD 0 0 = 3 * 5 := by
  obtain ⟨M', h1, h2, _⟩ := C3_neumann_application.1 2 [[-2, 1], [1, -2]] "left"
    (by decide) ⟨by decide, by decide⟩ (Or.inl rfl)
  obtain ⟨b', g1, g2, _⟩ := C3_neumann_application.2.1 2 [0, 0] "left" 3 5
    (by decide) (by decide) (Or.inl rfl)
  exact ⟨M', h1, by simpa using h2, b', g1, by simpa using g2⟩

/-- Claim C7 (counterexample to the claim as stated): on a 1D mesh, a boundary
call with the unrecognized side label "front" raises no error at all — it
completes successfully and leaves the mesh unchanged — contradicting the
claimed `InvalidSide` exception. -/
theorem C7_invalid_side_counterexample :
    okProp (buildRun 1 [4] [(0, 1)] "finite_volume" []) (fun m =>
      m.set_dirichlet_boundary "front" 5 = .ok m ∧
      m.set_neumann_boundary "front" 5 = .ok m) := by
  with_unfolding_all decide

/-- Claim C7 (amended): a boundary call with a side label outside
{"left","right","top","bottom"} is silently ignored — it returns the mesh
unchanged with no exception; a side valid only for the absent y axis on a 1D
mesh ("top"/"bottom") raises `KeyError` (not `InvalidSide`), with the mesh
state unmutated (the failing call returns no new state, and the key lookup
precedes every mutation). -/
theorem C7_invalid_side_behavior :
    (∀ (m : CartesianMesh) (side : String) (phi flux : ℚ),
      side ≠ "left" → side ≠ "right" → side ≠ "top" → side ≠ "bottom" →
      m.set_laplacian = .ok m →
      m.set_dirichlet_boundary side phi = .ok m ∧
      m.set_neumann_boundary side flux = .ok m) ∧
    (∀ (m : CartesianMesh) (phi flux : ℚ) (side : String),
      (side = "top" ∨ side = "bottom") →
      m.differentiation_matrix.length ≤ 1 →
      m.set_dirichlet_boundary side phi = .error .keyError ∧
      m.set_neumann_boundary side flux = .error .keyError) := by
  constructor
  · intro m side phi flux h1 h2 h3 h4 hInv
    constructor
    · unfold CartesianMesh.set_dirichlet_boundary
      rw [if_neg (fun h => h.elim h1 h2), ebind_ok, if_neg (fun h => h.elim h3 h4),
        ebind_ok]
      exact hInv
    · unfold CartesianMesh.set_neumann_boundary
      rw [if_neg (fun h => h.elim h1 h2), if_neg (fun h => h.elim h3 h4), ebind_ok]
      exact hInv
  · intro m phi flux side hs hlen
    rcases hs with rfl | rfl
    · constructor
      · unfold CartesianMesh.set_dirichlet_boundary
        rw [if_neg (by decide), ebind_ok, if_pos (Or.inl rfl),
          keyGet_none (by omega : m.differentiation_matrix.length ≤ 1), ebind_err,
          ebind_err]
      · unfold CartesianMesh.set_neumann_boundary
        rw [if_neg (by decide), if_pos (Or.inl rfl),
          keyGet_none (by omega : m.differentiation_matrix.length ≤ 1), ebind_err,
          ebind_err]
    · constructor
      · unfold CartesianMesh.set_dirichlet_boundary
        rw [if_neg (by decide), ebind_ok, if_pos (Or.inr rfl),
          keyGet_none (by omega : m.differentiation_matrix.length ≤ 1), ebind_err,
          ebind_err]
      · unfold CartesianMesh.set_neumann_boundary
        rw [if_neg (by decide), if_pos (Or.inr rfl),
          keyGet_none (by omega : m.differentiation_matrix.length ≤ 1), ebind_err,
          ebind_err]

/-- Witness for C7 on the concrete 1D 4-cell mesh. -/
theorem C7_invalid_side_behavior_witness :
    ∃ m : CartesianMesh,
      buildRun 1 [4] [(0, 1)] "finite_volume" [] = .ok m ∧
      m.set_dirichlet_boundary "front" 5 = .ok m ∧
      m.set_neumann_boundary "front" 7 = .ok m ∧
      m.set_dirichlet_boundary "top" 5 = .error .keyError ∧
      m.set_neumann_boundary "bottom" 7 = .error .keyError := by
  obtain ⟨m, hm⟩ := isOkB_ok
    (show isOkB (buildRun 1 [4] [(0, 1)] "finite_volume" []) = true by
      with_unfolding_all decide)
  have hInv := buildRun_stable hm
  have hlen : m.differentiation_matrix.length ≤ 1 := by
    have hp : okProp (buildRun 1 [4] [(0, 1)] "finite_volume" [])
        (fun m => m.differentiation_matrix.length ≤ 1) := by
      with_unfolding_all decide
    rw [hm] at hp
    exact hp
  obtain ⟨hd, hn⟩ := C7_invalid_side_behavior.1 m "front" 5 7
    (by decide) (by decide) (by decide) (by decide) hInv
  obtain ⟨hd2, _⟩ := C7_invalid_side_behavior.2 m 5 7 "top" (Or.inl rfl) hlen
  obtain ⟨_, hn2⟩ := C7_invalid_side_behavior.2 m 5 7 "bottom" (Or.inr rfl) hlen
  exact ⟨m, hm, hd, hn, hd2, hn2⟩

/-- Claim C9 (counterexample to the claim as stated): grid construction with
inverted bounds (1, 0) succeeds (negative cell width), and construction with
`n_cells = 0` under the node-centered family succeeds with an empty coordinate
list — the claimed `InvalidConfiguration` failures for `bounds[0] >= bounds[1]`
and `n_cells < 1` do not occur. -/
theorem C9_grid_validation_counterexample :
    okProp (grid.construct 4 ((1 : ℚ), 0) "finite_volume") (fun g =>
      g.cell_width = -(1/4)) ∧
    okProp (grid.construct 0 ((0 : ℚ), 1) "finite_difference") (fun g =>
      g.cell_cordinates = []) := by
  constructor <;> with_unfolding_all decide

/-- Claim C9 (amended): grid construction raises `ValueError` when the family
is not one of the two supported families, and performs no validation of
`n_cells` or bounds: any bounds succeed under the cell-centered family for
`n_cells ≥ 1` and under the node-centered family for `n_cells ≥ 2` or
`n_cells = 0`; `n_cells = 0` (cell-centered) and `n_cells = 1` (node-centered)
raise `ZeroDivisionError` from the width division, and negative `n_cells`
raises `ValueError` from `linspace`; the constructor has no side effects
beyond the returned grid. -/
theorem C9_grid_construction_validation :
    (∀ (n : ℤ) (c : ℚ × ℚ) (mt : String), mt ≠ "finite_volume" →
      mt ≠ "finite_difference" →
      grid.construct n c mt = .error (.valueError "Mesh type not supported")) ∧
    (∀ (n : ℤ) (c : ℚ × ℚ), 1 ≤ n →
      ∃ g, grid.construct n c "finite_volume" = .ok g) ∧
    (∀ (n : ℤ) (c : ℚ × ℚ), 2 ≤ n ∨ n = 0 →
      ∃ g, grid.construct n c "finite_difference" = .ok g) ∧
    (∀ c : ℚ × ℚ, grid.construct 0 c "finite_volume" = .error .zeroDivisionError) ∧
    (∀ c : ℚ × ℚ, grid.construct 1 c "finite_difference" = .error .zeroDivisionError) ∧
    (∀ (n : ℤ) (c : ℚ × ℚ), n < 0 →
      grid.construct n c "finite_volume" =
        .error (.valueError "Number of samples must be non-negative") ∧
      grid.construct n c "finite_difference" =
        .error (.valueError "Number of samples must be non-negative")) := by
  refine ⟨?_, ?_, ?_, ?_, ?_, ?_⟩
  · intro n c mt h1 h2
    exact grid_construct_bad_mt n c h1 h2
  · intro n c hn
    obtain ⟨coords, hc⟩ := grid_construct_fv_ok c hn
    exact ⟨_, hc⟩
  · intro n c hn
    obtain ⟨coords, hc⟩ := grid_construct_fd_ok c hn
    exact ⟨_, hc⟩
  · intro c
    unfold grid.construct
    rw [if_pos rfl,
      show pyDiv (c.2 - c.1) (((0 : ℤ) : ℚ)) = .error .zeroDivisionError from by
        unfold pyDiv
        rw [if_pos (by norm_num)], ebind_err]
  · intro c
    unfold grid.construct
    rw [if_neg (by decide), if_pos rfl,
      show pyDiv (c.2 - c.1) (((1 : ℤ) : ℚ) - 1) = .error .zeroDivisionError from by
        unfold pyDiv
        rw [if_pos (by norm_num)], ebind_err]
  · intro n c hn
    have h0 : ((n : ℤ) : ℚ) ≠ 0 := Int.cast_ne_zero.mpr (by omega)
    have h1 : ((n : ℤ) : ℚ) - 1 ≠ 0 := by
      have : ((n : ℤ) : ℚ) < 0 := by exact_mod_cast hn
      linarith
    constructor
    · unfold grid.construct
      rw [if_pos rfl,
        show pyDiv (c.2 - c.1) ((n : ℤ) : ℚ) = .ok ((c.2 - c.1) / ((n : ℤ) : ℚ)) from by
          unfold pyDiv
          rw [if_neg h0], ebind_ok]
      unfold npLinspace
      rw [if_pos hn, ebind_err]
    · unfold grid.construct
      rw [if_neg (by decide), if_pos rfl,
        show pyDiv (c.2 - c.1) (((n : ℤ) : ℚ) - 1) =
            .ok ((c.2 - c.1) / (((n : ℤ) : ℚ) - 1)) from by
          unfold pyDiv
          rw [if_neg h1], ebind_ok]
      unfold npLinspace
      rw [if_pos hn, ebind_err]

/-- Witness for C9 at concrete inputs for each clause. -/
theorem C9_grid_construction_validation_witness :
    grid.construct 4 ((0 : ℚ), 1) "tri" = .error (.valueError "Mesh type not supported") ∧
    (∃ g, grid.construct 4 ((0 : ℚ), 1) "finite_volume" = .ok g) ∧
    (∃ g, grid.construct 0 ((0 : ℚ), 1) "finite_difference" = .ok g) ∧
    grid.construct 0 ((0 : ℚ), 1) "finite_volume" = .error .zeroDivisionError ∧
    grid.construct 1 ((0 : ℚ), 1) "finite_difference" = .error .zeroDivisionError ∧
    grid.construct (-3) ((0 : ℚ), 1) "finite_volume" =
      .error (.valueError "Number of samples must be non-negative") := by
  have h := C9_grid_construction_validation
  exact ⟨h.1 4 (0, 1) "tri" (by decide) (by decide), h.2.1 4 (0, 1) (by decide),
    h.2.2.1 0 (0, 1) (Or.inr rfl), h.2.2.2.1 (0, 1), h.2.2.2.2.1 (0, 1),
    (h.2.2.2.2.2 (-3) (0, 1) (by decide)).1⟩

theorem set_laplacian_dim1_ok (dims : ℤ) (nc : List ℤ) (cs : List (ℚ × ℚ)) (mt : String)
    (g : grid) (D : Mat) (B : boundary_condition) (L : Mat) (hdim : dims = 1)
    (hw : g.cell_width ≠ 0) :
    ∃ m', CartesianMesh.set_laplacian ⟨dims, nc, cs, mt, [g], [D], [B], L⟩ = .ok m' := by
  unfold CartesianMesh.set_laplacian
  rw [if_pos (show (⟨dims, nc, cs, mt, [g], [D], [B], L⟩ :
      CartesianMesh).dimensions = 1 from hdim)]
  rw [show keyGet (⟨dims, nc, cs, mt, [g], [D], [B], L⟩ :
      CartesianMesh).differentiation_matrix 0 = .ok D from rfl, ebind_ok]
  rw [show keyGet (⟨dims, nc, cs, mt, [g], [D], [B], L⟩ :
      CartesianMesh).grid 0 = .ok g from rfl, ebind_ok]
  rw [show pyDiv 1 (g.cell_width * g.cell_width) =
      .ok (1 / (g.cell_width * g.cell_width)) from by
    unfold pyDiv
    rw [if_neg (mul_ne_zero hw hw)], ebind_ok]
  exact ⟨_, rfl⟩

theorem set_laplacian_dim2_ok (dims : ℤ) (nc : List ℤ) (cs : List (ℚ × ℚ)) (mt : String)
    (gx gy : grid) (Dx Dy : Mat) (Bx By : boundary_condition) (L : Mat) (hdim : dims = 2)
    (hwx : gx.cell_width ≠ 0) (hwy : gy.cell_width ≠ 0) :
    ∃ m', CartesianMesh.set_laplacian
      ⟨dims, nc, cs, mt, [gx, gy], [Dx, Dy], [Bx, By], L⟩ = .ok m' := by
  unfold CartesianMesh.set_laplacian
  rw [if_neg (show ¬(⟨dims, nc, cs, mt, [gx, gy], [Dx, Dy], [Bx, By], L⟩ :
      CartesianMesh).dimensions = 1 from fun h => by
    have h' : dims = 1 := h
    omega)]
  rw [if_pos (show (⟨dims, nc, cs, mt, [gx, gy], [Dx, Dy], [Bx, By], L⟩ :
      CartesianMesh).dimensions = 2 from hdim)]
  rw [show keyGet (⟨dims, nc, cs, mt, [gx, gy], [Dx, Dy], [Bx, By], L⟩ :
      CartesianMesh).differentiation_matrix 0 = .ok Dx from rfl, ebind_ok]
  rw [show keyGet (⟨dims, nc, cs, mt, [gx, gy], [Dx, Dy], [Bx, By], L⟩ :
      CartesianMesh).grid 0 = .ok gx from rfl, ebind_ok]
  rw [show pyDiv 1 (gx.cell_width * gx.cell_width) =
      .ok (1 / (gx.cell_width * gx.cell_width)) from by
    unfold pyDiv
    rw [if_neg (mul_ne_zero hwx hwx)], ebind_ok]
  rw [show keyGet (⟨dims, nc, cs, mt, [gx, gy], [Dx, Dy], [Bx, By], L⟩ :
      CartesianMesh).differentiation_matrix 1 = .ok Dy from rfl, ebind_ok]
  rw [show keyGet (⟨dims, nc, cs, mt, [gx, gy], [Dx, Dy], [Bx, By], L⟩ :
      CartesianMesh).grid 1 = .ok gy from rfl, ebind_ok]
  rw [show pyDiv 1 (gy.cell_width * gy.cell_width) =
      .ok (1 / (gy.cell_width * gy.cell_width)) from by
    unfold pyDiv
    rw [if_neg (mul_ne_zero hwy hwy)], ebind_ok]
  exact ⟨_, rfl⟩

/-- Claim C8 (counterexample to the claim as stated): construction with the
node-based scheme `finite_difference` and otherwise valid inputs fails (the
repository's own test suite asserts this raise), contradicting the claim that
both recognized schemes succeed. -/
theorem C8_scheme_counterexample :
    CartesianMesh.construct 2 [4, 4] [(0, 1), (0, 1)] "finite_difference" =
      .error (.valueError "finite_difference: is not an implemented mesh") := by
  with_unfolding_all decide

/-- Claim C8 (amended): `CartesianMesh` construction fails with
`InvalidConfiguration` (`ValueError`) if dimensions exceeds 2, if the
coordinates or n_cells sequence length differs from dimensions, or if the
scheme is anything other than cell-centered `finite_volume` (in particular the
node-based `finite_difference` scheme is rejected: only `finite_volume` is
implemented); it succeeds for the `finite_volume` scheme with valid
dimensions, cell counts and coordinates. -/
theorem C8_construction_validation :
    (∀ (d : ℤ) (nc : List ℤ) (cs : List (ℚ × ℚ)) (mt : String), 2 < d →
      raisesValueError (CartesianMesh.construct d nc cs mt)) ∧
    (∀ (d : ℤ) (nc : List ℤ) (cs : List (ℚ × ℚ)) (mt : String), (cs.length : ℤ) ≠ d →
      raisesValueError (CartesianMesh.construct d nc cs mt)) ∧
    (∀ (d : ℤ) (nc : List ℤ) (cs : List (ℚ × ℚ)) (mt : String), (nc.length : ℤ) ≠ d →
      raisesValueError (CartesianMesh.construct d nc cs mt)) ∧
    (∀ (d : ℤ) (nc : List ℤ) (cs : List (ℚ × ℚ)) (mt : String), 1 ≤ d →
      mt ≠ "finite_volume" → raisesValueError (CartesianMesh.construct d nc cs mt)) ∧
    (∀ (d : ℤ) (nc : List ℤ) (cs : List (ℚ × ℚ)), (d = 1 ∨ d = 2) →
      (nc.length : ℤ) = d → (cs.length : ℤ) = d → (∀ n ∈ nc, 1 ≤ n) →
      (∀ c ∈ cs, c.1 ≠ c.2) →
      runSucceeds (CartesianMesh.construct d nc cs "finite_volume")) := by
  refine ⟨?_, ?_, ?_, ?_, ?_⟩
  · intro d nc cs mt h
    unfold CartesianMesh.construct CartesianMesh.validate_inputs
    rw [if_pos h, ebind_err]
    exact ⟨_, rfl⟩
  · intro d nc cs mt h
    unfold CartesianMesh.construct CartesianMesh.validate_inputs
    by_cases h2 : 2 < d
    · rw [if_pos h2, ebind_err]
      exact ⟨_, rfl⟩
    · rw [if_neg h2, if_pos h, ebind_err]
      exact ⟨_, rfl⟩
  · intro d nc cs mt h
    unfold CartesianMesh.construct CartesianMesh.validate_inputs
    by_cases h2 : 2 < d
    · rw [if_pos h2, ebind_err]
      exact ⟨_, rfl⟩
    · by_cases h3 : (cs.length : ℤ) ≠ d
      · rw [if_neg h2, if_pos h3, ebind_err]
        exact ⟨_, rfl⟩
      · rw [if_neg h2, if_neg h3, if_pos h, ebind_err]
        exact ⟨_, rfl⟩
  · intro d nc cs mt hd hmt
    rcases validate_inputs_cases nc cs d mt with hok | ⟨s, herr⟩
    · have hsub := validate_inputs_ok_sub hok
      have hfd : mt ≠ "finite_difference" := by
        intro h
        rw [h] at hsub
        exact Bool.false_ne_true (fd_not_substring ▸ hsub)
      have hgrid : grid.construct (nc.getD 0 0) (cs.getD 0 (0, 0)) mt =
          .error (.valueError "Mesh type not supported") :=
        grid_construct_bad_mt _ _ hmt hfd
      obtain ⟨k, hk⟩ : ∃ k, d.toNat = k + 1 := ⟨d.toNat - 1, by omega⟩
      have hmapM : (List.range d.toNat).mapM
          (fun i => grid.construct (nc.getD i 0) (cs.getD i (0, 0)) mt) =
          .error (.valueError "Mesh type not supported") := by
        rw [hk, List.range_succ_eq_map]
        exact mapM_cons_error
          (fun i => grid.construct (nc.getD i 0) (cs.getD i (0, 0)) mt) 0
          (List.map Nat.succ (List.range k)) _ hgrid
      unfold CartesianMesh.construct
      rw [hok, ebind_ok, hmapM, ebind_err]
      exact ⟨_, rfl⟩
    · unfold CartesianMesh.construct
      rw [herr, ebind_err]
      exact ⟨s, rfl⟩
  · intro d nc cs hd hnc hcs hn hc
    rcases hd with rfl | rfl
    · obtain ⟨n, rfl⟩ := List.length_eq_one.mp (by exact_mod_cast hnc)
      obtain ⟨c, rfl⟩ := List.length_eq_one.mp (by exact_mod_cast hcs)
      have hn1 : 1 ≤ n := hn n (by simp)
      have hc1 : c.1 ≠ c.2 := hc c (by simp)
      have hval : CartesianMesh.validate_inputs [n] [c] 1 "finite_volume" = .ok () :=
        validate_inputs_ok (by omega) (by simp) (by simp) (by decide)
      obtain ⟨coords, hg⟩ := grid_construct_fv_ok c hn1
      have hdm := dm_construct_ok (n := n) (by omega)
      have hbc := bc_construct_ok (n := n) "finite_volume" (by omega) (Or.inl rfl)
      have hgrids : (List.range (1 : ℤ).toNat).mapM
          (fun i => grid.construct (List.getD [n] i 0)
            (List.getD [c] i (0, 0)) "finite_volume") =
          .ok [⟨n, c, (c.2 - c.1) / ((n : ℤ) : ℚ), coords⟩] := by
        rw [show (1 : ℤ).toNat = 1 from rfl, show List.range 1 = [0] from rfl,
          List.mapM_cons, List.mapM_nil,
          show List.getD [n] 0 0 = n from rfl,
          show List.getD [c] 0 ((0 : ℚ), (0 : ℚ)) = c from rfl, hg, ebind_ok]
        rfl
      have hdiffs : (List.range (1 : ℤ).toNat).mapM
          (fun i => differentiation_matrix.construct (List.getD [n] i 0)) =
          .ok [set_diagonal n.toNat 1 (-2) 1] := by
        rw [show (1 : ℤ).toNat = 1 from rfl, show List.range 1 = [0] from rfl,
          List.mapM_cons, List.mapM_nil,
          show List.getD [n] 0 0 = n from rfl, hdm, ebind_ok]
        rfl
      have hbcs : (List.range (1 : ℤ).toNat).mapM
          (fun i => boundary_condition.construct (List.getD [n] i 0) "finite_volume") =
          .ok [⟨List.replicate n.toNat 0, "finite_volume"⟩] := by
        rw [show (1 : ℤ).toNat = 1 from rfl, show List.range 1 = [0] from rfl,
          List.mapM_cons, List.mapM_nil,
          show List.getD [n] 0 0 = n from rfl, hbc, ebind_ok]
        rfl
      have hw : ((c.2 - c.1) / ((n : ℤ) : ℚ)) ≠ 0 :=
        div_ne_zero (sub_ne_zero.mpr (Ne.symm hc1)) (Int.cast_ne_zero.mpr (by omega))
      obtain ⟨m', hm'⟩ := set_laplacian_dim1_ok 1 [n] [c] "finite_volume"
        ⟨n, c, (c.2 - c.1) / ((n : ℤ) : ℚ), coords⟩ (set_diagonal n.toNat 1 (-2) 1)
        ⟨List.replicate n.toNat 0, "finite_volume"⟩ [] rfl hw
      unfold CartesianMesh.construct
      rw [hval, ebind_ok, hgrids, ebind_ok, hdiffs, ebind_ok, hbcs, ebind_ok, hm']
      exact ⟨m', rfl⟩
    · obtain ⟨n₁, n₂, rfl⟩ := List.length_eq_two.mp (by exact_mod_cast hnc)
      obtain ⟨c₁, c₂, rfl⟩ := List.length_eq_two.mp (by exact_mod_cast hcs)
      have hn1 : 1 ≤ n₁ := hn n₁ (by simp)
      have hn2 : 1 ≤ n₂ := hn n₂ (by simp)
      have hc1 : c₁.1 ≠ c₁.2 := hc c₁ (by simp)
      have hc2 : c₂.1 ≠ c₂.2 := hc c₂ (by simp)
      have hval : CartesianMesh.validate_inputs [n₁, n₂] [c₁, c₂] 2 "finite_volume" =
          .ok () := validate_inputs_ok (by omega) (by simp) (by simp) (by decide)
      obtain ⟨coords₁, hg₁⟩ := grid_construct_fv_ok c₁ hn1
      obtain ⟨coords₂, hg₂⟩ := grid_construct_fv_ok c₂ hn2
      have hdm₁ := dm_construct_ok (n := n₁) (by omega)
      have hdm₂ := dm_construct_ok (n := n₂) (by omega)
      have hbc₁ := bc_construct_ok (n := n₁) "finite_volume" (by omega) (Or.inl rfl)
      have hbc₂ := bc_construct_ok (n := n₂) "finite_volume" (by omega) (Or.inl rfl)
      have hgrids : (List.range (2 : ℤ).toNat).mapM
          (fun i => grid.construct (List.getD [n₁, n₂] i 0)
            (List.getD [c₁, c₂] i (0, 0)) "finite_volume") =
          .ok [⟨n₁, c₁, (c₁.2 - c₁.1) / ((n₁ : ℤ) : ℚ), coords₁⟩,
               ⟨n₂, c₂, (c₂.2 - c₂.1) / ((n₂ : ℤ) : ℚ), coords₂⟩] := by
        rw [show (2 : ℤ).toNat = 2 from rfl, show List.range 2 = [0, 1] from rfl,
          List.mapM_cons, List.mapM_cons, List.mapM_nil,
          show List.getD [n₁, n₂] 0 0 = n₁ from rfl,
          show List.getD [n₁, n₂] 1 0 = n₂ from rfl,
          show List.getD [c₁, c₂] 0 ((0 : ℚ), (0 : ℚ)) = c₁ from rfl,
          show List.getD [c₁, c₂] 1 ((0 : ℚ), (0 : ℚ)) = c₂ from rfl,
          hg₁, ebind_ok, hg₂, ebind_ok]
        rfl
      have hdiffs : (List.range (2 : ℤ).toNat).mapM
          (fun i => differentiation_matrix.construct (List.getD [n₁, n₂] i 0)) =
          .ok [set_diagonal n₁.toNat 1 (-2) 1, set_diagonal n₂.toNat 1 (-2) 1] := by
        rw [show (2 : ℤ).toNat = 2 from rfl, show List.range 2 = [0, 1] from rfl,
          List.mapM_cons, List.mapM_cons, List.mapM_nil,
          show List.getD [n₁, n₂] 0 0 = n₁ from rfl,
          show List.getD [n₁, n₂] 1 0 = n₂ from rfl, hdm₁, ebind_ok, hdm₂, ebind_ok]
        rfl
      have hbcs : (List.range (2 : ℤ).toNat).mapM
          (fun i => boundary_condition.construct (List.getD [n₁, n₂] i 0)
            "finite_volume") =
          .ok [⟨List.replicate n₁.toNat 0, "finite_volume"⟩,
               ⟨List.replicate n₂.toNat 0, "finite_volume"⟩] := by
        rw [show (2 : ℤ).toNat = 2 from rfl, show List.range 2 = [0, 1] from rfl,
          List.mapM_cons, List.mapM_cons, List.mapM_nil,
          show List.getD [n₁, n₂] 0 0 = n₁ from rfl,
          show List.getD [n₁, n₂] 1 0 = n₂ from rfl, hbc₁, ebind_ok, hbc₂, ebind_ok]
        rfl
      have hw₁ : ((c₁.2 - c₁.1) / ((n₁ : ℤ) : ℚ)) ≠ 0 :=
        div_ne_zero (sub_ne_zero.mpr (Ne.symm hc1)) (Int.cast_ne_zero.mpr (by omega))
      have hw₂ : ((c₂.2 - c₂.1) / ((n₂ : ℤ) : ℚ)) ≠ 0 :=
        div_ne_zero (sub_ne_zero.mpr (Ne.symm hc2)) (Int.cast_ne_zero.mpr (by omega))
      obtain ⟨m', hm'⟩ := set_laplacian_dim2_ok 2 [n₁, n₂] [c₁, c₂] "finite_volume"
        ⟨n₁, c₁, (c₁.2 - c₁.1) / ((n₁ : ℤ) : ℚ), coords₁⟩
        ⟨n₂, c₂, (c₂.2 - c₂.1) / ((n₂ : ℤ) : ℚ), coords₂⟩
        (set_diagonal n₁.toNat 1 (-2) 1) (set_diagonal n₂.toNat 1 (-2) 1)
        ⟨List.replicate n₁.toNat 0, "finite_volume"⟩
        ⟨List.replicate n₂.toNat 0, "finite_volume"⟩ [] rfl hw₁ hw₂
      unfold CartesianMesh.construct
      rw [hval, ebind_ok, hgrids, ebind_ok, hdiffs, ebind_ok, hbcs, ebind_ok, hm']
      exact ⟨m', rfl⟩

/-- Witness for C8 at concrete inputs for each clause. -/
theorem C8_construction_validation_witness :
    raisesValueError (CartesianMesh.construct 3 [4, 4, 4] [(0, 1), (0, 1), (0, 1)]
      "finite_volume") ∧
    raisesValueError (CartesianMesh.construct 2 [4, 4] [(0, 1)] "finite_volume") ∧
    raisesValueError (CartesianMesh.construct 2 [4] [(0, 1), (0, 1)] "finite_volume") ∧
    raisesValueError (CartesianMesh.construct 2 [4, 4] [(0, 1), (0, 1)]
      "finite_difference") ∧
    runSucceeds (CartesianMesh.construct 2 [3, 4] [(0, 1), (0, 2)] "finite_volume") := by
  have h := C8_construction_validation
  exact ⟨h.1 3 [4, 4, 4] [(0, 1), (0, 1), (0, 1)] "finite_volume" (by decide),
    h.2.1 2 [4, 4] [(0, 1)] "finite_volume" (by decide),
    h.2.2.1 2 [4] [(0, 1), (0, 1)] "finite_volume" (by decide),
    h.2.2.2.1 2 [4, 4] [(0, 1), (0, 1)] "finite_difference" (by decide) (by decide),
    h.2.2.2.2 2 [3, 4] [(0, 1), (0, 2)] (Or.inr rfl) (by decide) (by decide)
      (by decide) (by norm_num)⟩
